import Mathlib

/-!
Verification development for the QFATFileSystem repository (FAT12/16/32
user-space file system over a byte-addressed image device).

The embedding models the image device as a byte-addressed store
(`Disk : Nat → Nat`, each cell read modulo 256, matching the byte
granularity of the C++ `QDataStream` in little-endian mode).  All machine
integers are modelled as `Nat` with explicit truncation where the C++
types truncate.  The model assumes an open device (the `DeviceNotOpen`
paths of the source are unreachable in the model) and in-memory writes
that always succeed (an in-memory `QDataStream` never reports a failed
status), which is the setting of every claim.  Strings are modelled as
lists of character code units (`List Nat`); the inputs of the claims are
ASCII, and case mapping is modelled on the ASCII range.
-/

namespace QFAT

/-- The byte-addressed view of the volume device (L1 block view).
A cell holds a byte; reads truncate modulo 256. -/
def Disk : Type := Nat → Nat

/-- Read one byte. -/
def read8 (d : Disk) (a : Nat) : Nat := d a % 256

/-- Write one byte (stored modulo 256). -/
def dwrite (d : Disk) (a v : Nat) : Disk := fun x => if x = a then v % 256 else d x

/-- Little-endian 16-bit read, as `m_stream >> quint16` with
`QDataStream::LittleEndian`. -/
def read16 (d : Disk) (a : Nat) : Nat := read8 d a + 256 * read8 d (a + 1)

/-- Little-endian 32-bit read, as `m_stream >> quint32`. -/
def read32 (d : Disk) (a : Nat) : Nat :=
  read8 d a + 256 * read8 d (a + 1) + 65536 * read8 d (a + 2) + 16777216 * read8 d (a + 3)

/-- Write a list of bytes at consecutive offsets. -/
def writeBytes : Disk → Nat → List Nat → Disk
  | d, _, [] => d
  | d, off, b :: bs => writeBytes (dwrite d off b) (off + 1) bs

/-- Little-endian 16-bit write, as `m_stream << quint16`. -/
def write16 (d : Disk) (a v : Nat) : Disk := writeBytes d a [v % 256, v / 256 % 256]

/-- The 4 little-endian bytes of a 32-bit value, as `m_stream << quint32` emits them. -/
def bytes32 (v : Nat) : List Nat := [v % 256, v / 256 % 256, v / 65536 % 256, v / 16777216 % 256]

/-- Little-endian 32-bit write, as `m_stream << quint32`. -/
def write32 (d : Disk) (a v : Nat) : Disk := writeBytes d a (bytes32 v)

-- ============================================================================
-- internal_constants.h
-- ============================================================================

def BPB_BYTES_PER_SECTOR_OFFSET : Nat := 0x0B
def BPB_SECTORS_PER_CLUSTER_OFFSET : Nat := 0x0D
def BPB_RESERVED_SECTORS_OFFSET : Nat := 0x0E
def BPB_NUMBER_OF_FATS_OFFSET : Nat := 0x10
def BPB_ROOT_ENTRY_COUNT_OFFSET : Nat := 0x11
def BPB_SECTORS_PER_FAT_OFFSET : Nat := 0x16
def BPB_ROOT_DIRECTORY_CLUSTER_OFFSET : Nat := 0x2C

/-- Modelled from the spec: `BPB_SECTORS_PER_FAT32_OFFSET` is used by
`qfat32filesystem.cpp` but defined in none of the repository's source files;
the spec (section 6) gives the FAT32 sectors-per-FAT field at offset 0x24
(u32). -/
def BPB_SECTORS_PER_FAT32_OFFSET : Nat := 0x24

def ENTRY_SIZE : Nat := 32
def ENTRY_END_OF_DIRECTORY : Nat := 0x00
def ENTRY_DELETED : Nat := 0xE5
def ENTRY_CURRENT_DIRECTORY : Nat := 0x2E
def ENTRY_NAME_OFFSET : Nat := 0x00
def ENTRY_ATTRIBUTE_OFFSET : Nat := 0x0B
def ENTRY_CREATION_DATE_TIME_OFFSET : Nat := 0x0C
def ENTRY_HIGH_ORDER_CLUSTER_ADDRESS_OFFSET : Nat := 0x14
def ENTRY_WRITTEN_DATE_TIME_OFFSET : Nat := 0x16
def ENTRY_CLUSTER_OFFSET : Nat := 0x1A
def ENTRY_SIZE_OFFSET : Nat := 0x1C

def ENTRY_ATTRIBUTE_READ_ONLY : Nat := 0x01
def ENTRY_ATTRIBUTE_HIDDEN : Nat := 0x02
def ENTRY_ATTRIBUTE_SYSTEM : Nat := 0x04
def ENTRY_ATTRIBUTE_VOLUME_LABEL : Nat := 0x08
def ENTRY_ATTRIBUTE_DIRECTORY : Nat := 0x10
def ENTRY_ATTRIBUTE_ARCHIVE : Nat := 0x20
def ENTRY_ATTRIBUTE_LONG_FILE_NAME : Nat := 0x0F

def ENTRY_DATE_TIME_START_OF_YEAR : Nat := 1980

def ENTRY_LFN_SEQUENCE_MASK : Nat := 0x1F
def ENTRY_LFN_SEQUENCE_LAST_MASK : Nat := 0x40
def ENTRY_LFN_CHARS : Nat := 13
def ENTRY_LFN_PART1_OFFSET : Nat := 0x01
def ENTRY_LFN_PART1_LENGTH : Nat := 10
def ENTRY_LFN_PART2_OFFSET : Nat := 0x0E
def ENTRY_LFN_PART2_LENGTH : Nat := 12
def ENTRY_LFN_PART3_OFFSET : Nat := 0x1B
def ENTRY_LFN_PART3_LENGTH : Nat := 4

def MASK_4_BITS : Nat := 0x0F
def MASK_5_BITS : Nat := 0x1F
def MASK_6_BITS : Nat := 0x3F
def MASK_7_BITS : Nat := 0x7F

-- ============================================================================
-- Base-class BPB readers (qfatfilesystem_base.cpp)
-- ============================================================================

def readBytesPerSector (d : Disk) : Nat := read16 d BPB_BYTES_PER_SECTOR_OFFSET

def readSectorsPerCluster (d : Disk) : Nat := read8 d BPB_SECTORS_PER_CLUSTER_OFFSET

def readReservedSectors (d : Disk) : Nat := read16 d BPB_RESERVED_SECTORS_OFFSET

def readNumberOfFATs (d : Disk) : Nat := read8 d BPB_NUMBER_OF_FATS_OFFSET

def readRootEntryCount (d : Disk) : Nat := read16 d BPB_ROOT_ENTRY_COUNT_OFFSET

-- ============================================================================
-- Date/time (QDateTime model and the FAT codec of qfatfilesystem_base.cpp)
-- ============================================================================

/-- Model of `QDateTime` restricted to its calendar fields.  An invalid
`QDateTime` (for example the default-constructed one) is any record for
which `dtValid` is false; the all-zero record is the default. -/
structure DateTime where
  year : Nat
  month : Nat
  day : Nat
  hour : Nat
  minute : Nat
  second : Nat
deriving DecidableEq

/-- Gregorian leap-year rule, as `QDate::isLeapYear`. -/
def isLeapYear (y : Nat) : Bool := (y % 4 == 0 && y % 100 != 0) || y % 400 == 0

/-- Days in a month, as `QDate` validity uses it. -/
def daysInMonth (y m : Nat) : Nat :=
  if m = 2 then (if isLeapYear y then 29 else 28)
  else if m = 4 ∨ m = 6 ∨ m = 9 ∨ m = 11 then 30
  else 31

/-- `QDate(y,m,d).isValid() && QTime(h,mi,s).isValid()` for positive years. -/
def dtValid (t : DateTime) : Bool :=
  1 ≤ t.year && 1 ≤ t.month && t.month ≤ 12 && 1 ≤ t.day && t.day ≤ daysInMonth t.year t.month
    && t.hour < 24 && t.minute < 60 && t.second < 60

/-- `QFATFileSystem::encodeFATDateTime` (qfatfilesystem_base.cpp:194).
Returns the FAT `(date, time)` words; an invalid input encodes as `(0, 0)`.
The source clamps `year - 1980` into `[0, 127]` (the `Nat` subtraction
matches the negative clamp). -/
def encodeFATDateTime (dt : DateTime) : Nat × Nat :=
  if !dtValid dt then (0, 0)
  else
    let year := min (dt.year - ENTRY_DATE_TIME_START_OF_YEAR) 127
    let date := (dt.day &&& MASK_5_BITS) ||| ((dt.month &&& MASK_4_BITS) <<< 5)
      ||| ((year &&& MASK_7_BITS) <<< 9)
    let time := ((dt.second / 2) &&& MASK_5_BITS) ||| ((dt.minute &&& MASK_6_BITS) <<< 5)
      ||| ((dt.hour &&& MASK_5_BITS) <<< 11)
    (date, time)

/-- `QFATFileSystem::parseDateTime` (qfatfilesystem_base.cpp:537).  Note the
source computes `day = (date & MASK_5_BITS) + 1`. -/
def parseDateTime (date time : Nat) : DateTime where
  year := ENTRY_DATE_TIME_START_OF_YEAR + ((date >>> 9) &&& MASK_7_BITS)
  month := (date >>> 5) &&& MASK_4_BITS
  day := (date &&& MASK_5_BITS) + 1
  hour := (time >>> 11) &&& MASK_5_BITS
  minute := (time >>> 5) &&& MASK_6_BITS
  second := (time &&& MASK_5_BITS) * 2

-- ============================================================================
-- FAT table layer (L3): per-variant readNextCluster / writeNextCluster
-- ============================================================================

/-- `QFAT12FileSystem::readNextCluster` (qfat12filesystem.cpp:69).  The C++
`value >> 4` and `value & 0x0FFF` appear as `>>> 4` and `&&& 0x0FFF`. -/
def fat12ReadNextCluster (d : Disk) (cluster : Nat) : Nat :=
  let bytesPerSector := readBytesPerSector d
  let reservedSectors := readReservedSectors d
  let fatOffset := reservedSectors * bytesPerSector
  let entryOffset := cluster + cluster / 2
  let absoluteOffset := fatOffset + entryOffset
  let value := read16 d absoluteOffset
  let value := if cluster % 2 = 1 then value >>> 4 else value &&& 0x0FFF
  if 0x0FF8 ≤ value then 0xFFFF
  else if value = 0x0FF7 then 0xFFFF
  else value

/-- `QFAT12FileSystem::writeNextCluster` (qfat12filesystem.cpp:349).
Read-modify-write of the 16-bit word spanning the 12-bit entry.  Note the
source writes a single FAT copy (there is no loop over `numFATs`). -/
def fat12WriteNextCluster (d : Disk) (cluster value : Nat) : Disk :=
  let bytesPerSector := readBytesPerSector d
  let reservedSectors := readReservedSectors d
  let fatOffset := reservedSectors * bytesPerSector
  let entryOffset := cluster + cluster / 2
  let absoluteOffset := fatOffset + entryOffset
  let current := read16 d absoluteOffset
  let current :=
    if cluster % 2 = 1 then (current &&& 0x000F) ||| ((value &&& 0x0FFF) <<< 4)
    else (current &&& 0xF000) ||| (value &&& 0x0FFF)
  write16 d absoluteOffset current

/-- `QFAT16FileSystem::readNextCluster` (qfat16filesystem.cpp:72). -/
def fat16ReadNextCluster (d : Disk) (cluster : Nat) : Nat :=
  let bytesPerSector := readBytesPerSector d
  let reservedSectors := readReservedSectors d
  let fatOffset := reservedSectors * bytesPerSector + cluster * 2
  let nextCluster := read16 d fatOffset
  if 0xFFF8 ≤ nextCluster then 0 else nextCluster

/-- The `for (i = 0; i < numFATs; i++)` loop shared by the FAT16 and FAT32
`writeNextCluster`: at each copy the loop re-reads sectors-per-FAT from the
BPB of the current disk (`readSPF`) and writes the entry bytes `bs` at
`fatOffset + i * sectorsPerFAT * bytesPerSector`.  The first argument of the
recursion is the copy index `i`, the second the number of copies still to
write. -/
def fatWriteCopies (readSPF : Disk → Nat) (bs : List Nat) (fatOffset bytesPerSector : Nat) :
    Nat → Nat → Disk → Disk
  | _, 0, d => d
  | i, Nat.succ k, d =>
    let sectorsPerFAT := readSPF d
    let fatCopyOffset := fatOffset + i * sectorsPerFAT * bytesPerSector
    fatWriteCopies readSPF bs fatOffset bytesPerSector (i + 1) k (writeBytes d fatCopyOffset bs)

/-- `QFAT16FileSystem::writeNextCluster` (qfat16filesystem.cpp:342): writes
the 16-bit value to every FAT copy. -/
def fat16WriteNextCluster (d : Disk) (cluster value : Nat) : Disk :=
  let bytesPerSector := readBytesPerSector d
  let reservedSectors := readReservedSectors d
  let fatOffset := reservedSectors * bytesPerSector + cluster * 2
  let numFATs := readNumberOfFATs d
  fatWriteCopies (fun e => read16 e BPB_SECTORS_PER_FAT_OFFSET)
    [value % 256, value / 256 % 256] fatOffset bytesPerSector 0 numFATs d

/-- `QFAT32FileSystem::readNextCluster` (qfat32filesystem.cpp:56). -/
def fat32ReadNextCluster (d : Disk) (cluster : Nat) : Nat :=
  let bytesPerSector := readBytesPerSector d
  let reservedSectors := readReservedSectors d
  let fatOffset := reservedSectors * bytesPerSector + cluster * 4
  let nextCluster := read32 d fatOffset
  let nextCluster := nextCluster &&& 0x0FFFFFFF
  if 0x0FFFFFF8 ≤ nextCluster then 0 else nextCluster

/-- `QFAT32FileSystem::writeNextCluster` (qfat32filesystem.cpp:322): masks the
value with `0x0FFFFFFF` and writes the resulting 32-bit word to every FAT
copy (a plain overwrite of the whole slot, not a read-modify-write). -/
def fat32WriteNextCluster (d : Disk) (cluster value : Nat) : Disk :=
  let bytesPerSector := readBytesPerSector d
  let reservedSectors := readReservedSectors d
  let fatOffset := reservedSectors * bytesPerSector + cluster * 4
  let numFATs := readNumberOfFATs d
  let value := value &&& 0x0FFFFFFF
  fatWriteCopies (fun e => read32 e BPB_SECTORS_PER_FAT32_OFFSET)
    (bytes32 value) fatOffset bytesPerSector 0 numFATs d

/-- All `numFATs` FAT copies hold the same bytes: copy `i` (the region of
`fatBytes` bytes at `base + i * fatBytes`) agrees pointwise with copy 0. -/
def fatMirrored (d : Disk) (base fatBytes numFATs : Nat) : Prop :=
  ∀ i < numFATs, ∀ j < fatBytes, d (base + i * fatBytes + j) = d (base + j)

instance (d : Disk) (base fatBytes numFATs : Nat) :
    Decidable (fatMirrored d base fatBytes numFATs) := by
  unfold fatMirrored; infer_instance

-- ============================================================================
-- Directory-entry classification (qfatfilesystem_base.cpp)
-- ============================================================================

/-- A 32-byte directory entry buffer; byte `i` of entry `e`. -/
def entryByte (e : List Nat) (i : Nat) : Nat := e.getD i 0

/-- `QFATFileSystem::isLongFileNameEntry` (qfatfilesystem_base.cpp:406):
`(entry[ENTRY_ATTRIBUTE_OFFSET] & ENTRY_ATTRIBUTE_LONG_FILE_NAME) != 0`. -/
def isLongFileNameEntry (e : List Nat) : Bool :=
  (entryByte e ENTRY_ATTRIBUTE_OFFSET &&& ENTRY_ATTRIBUTE_LONG_FILE_NAME) != 0

/-- `QFATFileSystem::isDeletedEntry` (qfatfilesystem_base.cpp:412). -/
def isDeletedEntry (e : List Nat) : Bool :=
  entryByte e ENTRY_NAME_OFFSET == ENTRY_DELETED

/-- `QFATFileSystem::isValidEntry` (qfatfilesystem_base.cpp:418). -/
def isValidEntry (e : List Nat) : Bool :=
  if entryByte e ENTRY_NAME_OFFSET = ENTRY_END_OF_DIRECTORY
      ∨ entryByte e ENTRY_NAME_OFFSET = ENTRY_DELETED then false
  else if entryByte e ENTRY_NAME_OFFSET = ENTRY_CURRENT_DIRECTORY then false
  else if (entryByte e ENTRY_ATTRIBUTE_OFFSET &&& ENTRY_ATTRIBUTE_VOLUME_LABEL) != 0 then false
  else true

-- ============================================================================
-- QString model: code-unit lists, ASCII case mapping, path splitting
-- ============================================================================

/-- A Qt string as its list of UTF-16 code units (the claims use ASCII). -/
def qstr (s : String) : List Nat := s.toList.map Char.toNat

/-- `QChar::toUpper` on the ASCII range (all names in the claims are ASCII). -/
def qToUpper (c : Nat) : Nat := if 97 ≤ c ∧ c ≤ 122 then c - 32 else c

/-- `QChar::toLower` on the ASCII range. -/
def qToLower (c : Nat) : Nat := if 65 ≤ c ∧ c ≤ 90 then c + 32 else c

def listToUpper (s : List Nat) : List Nat := s.map qToUpper

def listToLower (s : List Nat) : List Nat := s.map qToLower

/-- `QChar::isSpace` on the ASCII range, for `QString::trimmed`. -/
def qIsSpace (c : Nat) : Bool := c == 32 || (9 ≤ c && c ≤ 13)

/-- `QString::trimmed`. -/
def qTrimmed (s : List Nat) : List Nat :=
  ((s.dropWhile qIsSpace).reverse.dropWhile qIsSpace).reverse

/-- `QFATFileSystem::splitPath` (qfatfilesystem_base.cpp:58): map `\` to `/`,
strip leading and trailing slashes, empty result gives no components, else
split on `/` skipping empty parts. -/
def splitPath (path : List Nat) : List (List Nat) :=
  let normalized := path.map (fun c => if c = 92 then 47 else c)
  let normalized := normalized.dropWhile (· = 47)
  let normalized := (normalized.reverse.dropWhile (· = 47)).reverse
  if normalized.isEmpty then []
  else (normalized.splitOn 47).filter (fun p => !p.isEmpty)

/-- Rebuild `"/" + parts.join("/")` as the write/delete paths do. -/
def joinPath (parts : List (List Nat)) : List Nat :=
  47 :: (List.intercalate [47] parts)

-- ============================================================================
-- Short-name generation (qfatfilesystem_base.cpp:215)
-- ============================================================================

/-- A byte kept by the short-name regular expression
`[^A-Z0-9_^$~!#%&\-{}@'`()]` (everything else is removed). -/
def isShortNameChar (c : Nat) : Bool :=
  (65 ≤ c && c ≤ 90) || (48 ≤ c && c ≤ 57) || c == 95 || c == 94 || c == 36 || c == 126
    || c == 33 || c == 35 || c == 37 || c == 38 || c == 45 || c == 123 || c == 125
    || c == 64 || c == 39 || c == 96 || c == 40 || c == 41

/-- The index after the last `.` of `s`, or none (`QString::lastIndexOf`). -/
def lastDotIdx (s : List Nat) : Option Nat :=
  (List.range s.length).reverse.find? (fun i => s.getD i 0 = 46)

-- ============================================================================
-- qfatfilesystem.h: error codes and file-info record
-- ============================================================================

/-- `enum class QFATError` (qfatfilesystem.h). -/
inductive QFATError where
  | None
  | DeviceNotOpen
  | InvalidPath
  | FileNotFound
  | DirectoryNotFound
  | InvalidCluster
  | ReadError
  | WriteError
  | NotImplemented
  | InsufficientSpace
  | InvalidFileName
deriving DecidableEq

/-- `struct QFATFileInfo` (qfatfilesystem.h); the field defaults are the
default constructor's (default `QDateTime` is invalid, modelled as the
all-zero record). -/
structure QFATFileInfo where
  name : List Nat := []
  longName : List Nat := []
  isDirectory : Bool := false
  size : Nat := 0
  created : DateTime := ⟨0, 0, 0, 0, 0, 0⟩
  modified : DateTime := ⟨0, 0, 0, 0, 0, 0⟩
  attributes : Nat := 0
  cluster : Nat := 0
deriving DecidableEq

instance : Inhabited QFATFileInfo := ⟨{}⟩

-- ============================================================================
-- Short-name generation (qfatfilesystem_base.cpp:215)
-- ============================================================================

/-- The numeric-tail loop of `generateShortName`: while the candidate
collides with an existing entry and the tail number is below 1000, build the
next `~N` candidate.  Fuel 1001 covers every reachable tail number. -/
def generateShortNameAux (baseName ext : List Nat) (existingEntries : List QFATFileInfo) :
    Nat → Nat → List Nat → List Nat
  | 0, _, testName => testName
  | Nat.succ fuel, tailNum, testName =>
    let duplicate := existingEntries.any (fun e => listToUpper e.name == listToUpper testName)
    if duplicate ∧ tailNum < 1000 then
      let tail := 126 :: ((Nat.toDigits 10 tailNum).map Char.toNat)
      let truncatedBase := baseName.take (8 - tail.length)
      let testName := truncatedBase ++ tail ++ (if ext.isEmpty then [] else 46 :: ext)
      generateShortNameAux baseName ext existingEntries fuel (tailNum + 1) testName
    else testName

/-- `QFATFileSystem::generateShortName` (qfatfilesystem_base.cpp:215). -/
def generateShortName (longName : List Nat) (existingEntries : List QFATFileInfo) : List Nat :=
  let baseName := listToUpper longName
  let (baseName, ext) :=
    match lastDotIdx baseName with
    | some dotPos => if 0 < dotPos then (baseName.take dotPos, baseName.drop (dotPos + 1))
                     else (baseName, [])
    | none => (baseName, [])
  let baseName := baseName.filter isShortNameChar
  let ext := ext.filter isShortNameChar
  let baseName := if 8 < baseName.length then baseName.take 6 else baseName
  let ext := if 3 < ext.length then ext.take 3 else ext
  let shortName := baseName ++ (if ext.isEmpty then [] else 46 :: ext)
  generateShortNameAux baseName ext existingEntries 1001 1 shortName

-- ============================================================================
-- LFN codec (qfatfilesystem_base.cpp:275..363)
-- ============================================================================

/-- The space-padded 11-byte 8.3 form of a short name, as
`calculateLFNChecksum` builds it (split at the first `.`). -/
def lfnShortNameBytes (shortName : List Nat) : List Nat :=
  let upper := listToUpper shortName
  let dotPos := upper.findIdx (· = 46)
  let hasDot := dotPos < upper.length
  let base := if hasDot then upper.take dotPos else upper
  let ext := if hasDot then upper.drop (dotPos + 1) else []
  (List.range 11).map (fun i =>
    if i < 8 then (if i < min 8 base.length then base.getD i 32 else 32)
    else if hasDot ∧ i - 8 < min 3 ext.length then ext.getD (i - 8) 32
    else 32)

/-- One step of the checksum recurrence
`checksum = ((checksum & 1) << 7) + (checksum >> 1) + name[i]` in `quint8`
arithmetic. -/
def lfnChecksumFold : List Nat → Nat → Nat
  | [], c => c
  | b :: bs, c => lfnChecksumFold bs ((((c &&& 1) <<< 7) + (c >>> 1) + b) % 256)

/-- `QFATFileSystem::calculateLFNChecksum` (qfatfilesystem_base.cpp:275). -/
def calculateLFNChecksum (shortName : List Nat) : Nat :=
  lfnChecksumFold (lfnShortNameBytes shortName) 0

/-- `QFATFileSystem::calculateLFNEntriesNeeded` (qfatfilesystem_base.cpp:310). -/
def calculateLFNEntriesNeeded (longName : List Nat) : Nat :=
  (longName.length + 12) / 13

/-- `QFATFileSystem::writeLFNEntry` (qfatfilesystem_base.cpp:317): the
32-byte LFN entry for the 13-character slice `sequence` of `longName`
(characters past the end are written as 0xFFFF).  Note the repository
places part 3 at offset 0x1B (`ENTRY_LFN_PART3_OFFSET`). -/
def writeLFNEntry (longName : List Nat) (sequence checksum : Nat) (isLast : Bool) : List Nat :=
  let startPos := (sequence - 1) * 13
  let lfnChar := fun charIndex =>
    if charIndex < longName.length then longName.getD charIndex 0 else 0xFFFF
  (List.range ENTRY_SIZE).map (fun i =>
    if i = 0 then
      (if isLast then sequence ||| ENTRY_LFN_SEQUENCE_LAST_MASK else sequence) % 256
    else if i = ENTRY_ATTRIBUTE_OFFSET then ENTRY_ATTRIBUTE_LONG_FILE_NAME
    else if i = 0x0D then checksum % 256
    else if ENTRY_LFN_PART1_OFFSET ≤ i ∧ i < ENTRY_LFN_PART1_OFFSET + ENTRY_LFN_PART1_LENGTH then
      let ch := lfnChar (startPos + (i - ENTRY_LFN_PART1_OFFSET) / 2)
      if (i - ENTRY_LFN_PART1_OFFSET) % 2 = 0 then ch % 256 else ch / 256 % 256
    else if ENTRY_LFN_PART2_OFFSET ≤ i ∧ i < ENTRY_LFN_PART2_OFFSET + ENTRY_LFN_PART2_LENGTH then
      let ch := lfnChar (startPos + 5 + (i - ENTRY_LFN_PART2_OFFSET) / 2)
      if (i - ENTRY_LFN_PART2_OFFSET) % 2 = 0 then ch % 256 else ch / 256 % 256
    else if ENTRY_LFN_PART3_OFFSET ≤ i ∧ i < ENTRY_LFN_PART3_OFFSET + ENTRY_LFN_PART3_LENGTH then
      let ch := lfnChar (startPos + 11 + (i - ENTRY_LFN_PART3_OFFSET) / 2)
      if (i - ENTRY_LFN_PART3_OFFSET) % 2 = 0 then ch % 256 else ch / 256 % 256
    else 0)

/-- `QFATFileSystem::readLongFileName` (qfatfilesystem_base.cpp:436):
collect the 13 UTF-16LE code units of the three parts, stopping at the
first 0x0000 or 0xFFFF. -/
def readLongFileName (e : List Nat) : List Nat :=
  let chars :=
    (List.range (ENTRY_LFN_PART1_LENGTH / 2)).map
      (fun i => entryByte e (ENTRY_LFN_PART1_OFFSET + i * 2)
        + 256 * entryByte e (ENTRY_LFN_PART1_OFFSET + i * 2 + 1))
    ++ (List.range (ENTRY_LFN_PART2_LENGTH / 2)).map
      (fun i => entryByte e (ENTRY_LFN_PART2_OFFSET + i * 2)
        + 256 * entryByte e (ENTRY_LFN_PART2_OFFSET + i * 2 + 1))
    ++ (List.range (ENTRY_LFN_PART3_LENGTH / 2)).map
      (fun i => entryByte e (ENTRY_LFN_PART3_OFFSET + i * 2)
        + 256 * entryByte e (ENTRY_LFN_PART3_OFFSET + i * 2 + 1))
  chars.takeWhile (fun c => c ≠ 0 ∧ c ≠ 0xFFFF)

-- ============================================================================
-- Directory-entry decoding (qfatfilesystem_base.cpp:467..610)
-- ============================================================================

/-- The `name8_3` string the source rebuilds from an entry's 11 name bytes
(trailing spaces trimmed on base and extension, `.` inserted when both
nonempty).  This exact computation appears in `parseDirectoryEntry` and in
the directory scans of the concrete classes. -/
def entryName83 (e : List Nat) : List Nat :=
  let base := (((List.range 8).map (fun i => entryByte e i)).reverse.dropWhile (· = 32)).reverse
  let ext := (((List.range 3).map (fun i => entryByte e (8 + i))).reverse.dropWhile (· = 32)).reverse
  if ext.isEmpty then base
  else (if base.isEmpty then [] else base ++ [46]) ++ ext

/-- `QFATFileSystem::parseDirectoryEntry` (qfatfilesystem_base.cpp:467). -/
def parseDirectoryEntry (e : List Nat) (longName : List Nat) : QFATFileInfo :=
  let name83 := qTrimmed (entryName83 e)
  let attributes := entryByte e ENTRY_ATTRIBUTE_OFFSET
  let size := entryByte e ENTRY_SIZE_OFFSET + 256 * entryByte e (ENTRY_SIZE_OFFSET + 1)
    + 65536 * entryByte e (ENTRY_SIZE_OFFSET + 2) + 16777216 * entryByte e (ENTRY_SIZE_OFFSET + 3)
  let cluster := entryByte e ENTRY_CLUSTER_OFFSET + 256 * entryByte e (ENTRY_CLUSTER_OFFSET + 1)
  let clusterHigh := entryByte e ENTRY_HIGH_ORDER_CLUSTER_ADDRESS_OFFSET
    + 256 * entryByte e (ENTRY_HIGH_ORDER_CLUSTER_ADDRESS_OFFSET + 1)
  let cluster := if 0 < clusterHigh then cluster ||| (clusterHigh <<< 16) else cluster
  let createdTime := entryByte e ENTRY_CREATION_DATE_TIME_OFFSET
    + 256 * entryByte e (ENTRY_CREATION_DATE_TIME_OFFSET + 1)
  let createdDate := entryByte e (ENTRY_CREATION_DATE_TIME_OFFSET + 2)
    + 256 * entryByte e (ENTRY_CREATION_DATE_TIME_OFFSET + 3)
  let modifiedTime := entryByte e ENTRY_WRITTEN_DATE_TIME_OFFSET
    + 256 * entryByte e (ENTRY_WRITTEN_DATE_TIME_OFFSET + 1)
  let modifiedDate := entryByte e (ENTRY_WRITTEN_DATE_TIME_OFFSET + 2)
    + 256 * entryByte e (ENTRY_WRITTEN_DATE_TIME_OFFSET + 3)
  { name := name83
    longName := if longName.isEmpty then name83 else qTrimmed longName
    attributes := attributes
    isDirectory := (attributes &&& ENTRY_ATTRIBUTE_DIRECTORY) != 0
    size := size
    cluster := cluster
    modified := if modifiedDate ≠ 0 then parseDateTime modifiedDate modifiedTime else ⟨0, 0, 0, 0, 0, 0⟩
    created := if createdDate ≠ 0 then parseDateTime createdDate createdTime else ⟨0, 0, 0, 0, 0, 0⟩ }

/-- The 32 bytes of the directory entry at byte offset `off`. -/
def readEntryBytes (d : Disk) (off : Nat) : List Nat :=
  (List.range ENTRY_SIZE).map (fun i => read8 d (off + i))

/-- The entry-walk of `QFATFileSystem::readDirectoryEntries`
(qfatfilesystem_base.cpp:551): `fuel` is the number of 32-byte slots left,
`currentLongName` the LFN accumulator. -/
def readDirectoryEntriesAux (d : Disk) : Nat → Nat → List Nat → List QFATFileInfo
  | _, 0, _ => []
  | offset, Nat.succ fuel, currentLongName =>
    let e := readEntryBytes d offset
    if entryByte e ENTRY_NAME_OFFSET = ENTRY_END_OF_DIRECTORY then []
    else if isDeletedEntry e then
      readDirectoryEntriesAux d (offset + ENTRY_SIZE) fuel []
    else if isLongFileNameEntry e then
      let part := readLongFileName e
      let isLastInSequence := (entryByte e ENTRY_NAME_OFFSET &&& ENTRY_LFN_SEQUENCE_LAST_MASK) != 0
      let currentLongName := if isLastInSequence then part else part ++ currentLongName
      readDirectoryEntriesAux d (offset + ENTRY_SIZE) fuel currentLongName
    else if isValidEntry e then
      parseDirectoryEntry e currentLongName :: readDirectoryEntriesAux d (offset + ENTRY_SIZE) fuel []
    else
      readDirectoryEntriesAux d (offset + ENTRY_SIZE) fuel currentLongName

/-- `QFATFileSystem::readDirectoryEntries` (qfatfilesystem_base.cpp:551). -/
def readDirectoryEntries (d : Disk) (offset maxSize : Nat) : List QFATFileInfo :=
  readDirectoryEntriesAux d offset (maxSize / ENTRY_SIZE) []

-- ============================================================================
-- `QFATFileSystem::findInDirectory` (qfatfilesystem_base.cpp:79)
-- ============================================================================

/-- The `isGarbageLFN` lambda of `findInDirectory`
(qfatfilesystem_base.cpp:98). -/
def isGarbageLFN (longName shortName : List Nat) : Bool :=
  if listToUpper longName == listToUpper shortName then false
  else
    let nonAsciiCount := (longName.filter (fun ch => 127 < ch ∨ ch < 32)).length
    0 < longName.length ∧ longName.length < nonAsciiCount * 2

/-- `QFATFileSystem::findInDirectory` (qfatfilesystem_base.cpp:79): exact
case-insensitive match on short or long name, then the fallback that
matches entries written without LFN entries against the truncated base of
the searched name.  Returns the default (empty-name) record on no match. -/
def findInDirectory (entries : List QFATFileInfo) (name : List Nat) : QFATFileInfo :=
  let upperName := listToUpper name
  match entries.find? (fun e =>
      listToUpper e.name == upperName || listToUpper e.longName == upperName) with
  | some e => e
  | none =>
    let searchUpper := upperName
    let (searchBase, searchExt) :=
      match lastDotIdx searchUpper with
      | some dotPos =>
        if 0 < dotPos then (searchUpper.take dotPos, searchUpper.drop (dotPos + 1))
        else (searchUpper, [])
      | none => (searchUpper, [])
    let originalBase := searchBase
    let searchBase := searchBase.filter isShortNameChar
    let searchExt := searchExt.filter isShortNameChar
    let needsTruncation := 8 < searchBase.length ∨ 3 < searchExt.length ∨ searchBase ≠ originalBase
    let searchBase := if 6 < searchBase.length then searchBase.take 6 else searchBase
    let searchExt := if 3 < searchExt.length then searchExt.take 3 else searchExt
    match entries.find? (fun e =>
        let hasValidLFN := (listToUpper e.longName ≠ listToUpper e.name)
          ∧ ¬(isGarbageLFN e.longName e.name = true)
        if hasValidLFN then false
        else
          let entryShortName := listToUpper e.name
          let (entryBase, entryExt) :=
            match lastDotIdx entryShortName with
            | some dotPos =>
              if 0 < dotPos then (entryShortName.take dotPos, entryShortName.drop (dotPos + 1))
              else (entryShortName, [])
            | none => (entryShortName, [])
          if entryExt ≠ searchExt then false
          else entryBase == searchBase && !(entryBase.contains 126) && !needsTruncation) with
    | some e => e
    | none => default

-- ============================================================================
-- FAT16 geometry and directory listing (qfat16filesystem.cpp)
-- ============================================================================

/-- `QFAT16FileSystem::readRootDirSector` (qfat16filesystem.cpp:26). -/
def fat16ReadRootDirSector (d : Disk) : Nat :=
  let reservedSectors := readReservedSectors d
  let numFATs := readNumberOfFATs d
  let sectorsPerFAT := read16 d BPB_SECTORS_PER_FAT_OFFSET
  reservedSectors + numFATs * sectorsPerFAT

/-- `QFAT16FileSystem::calculateRootDirOffset` (qfat16filesystem.cpp:41). -/
def fat16CalculateRootDirOffset (d : Disk) : Nat :=
  fat16ReadRootDirSector d * readBytesPerSector d

/-- `QFAT16FileSystem::calculateClusterOffset` (qfat16filesystem.cpp:48);
callers pass `cluster ≥ 2` (the `Nat` subtraction matches the unsigned
arithmetic there). -/
def fat16CalculateClusterOffset (d : Disk) (cluster : Nat) : Nat :=
  let bytesPerSector := readBytesPerSector d
  let sectorsPerCluster := readSectorsPerCluster d
  let reservedSectors := readReservedSectors d
  let numFATs := readNumberOfFATs d
  let sectorsPerFAT := read16 d BPB_SECTORS_PER_FAT_OFFSET
  let rootEntryCount := readRootEntryCount d
  let rootDirSectors := (rootEntryCount * ENTRY_SIZE + bytesPerSector - 1) / bytesPerSector
  let dataAreaStart := reservedSectors + numFATs * sectorsPerFAT + rootDirSectors
  let dataAreaOffset := dataAreaStart * bytesPerSector
  let clusterOffset := (cluster - 2) * sectorsPerCluster * bytesPerSector
  dataAreaOffset + clusterOffset

/-- `QFAT16FileSystem::listRootDirectory` (qfat16filesystem.cpp:90). -/
def fat16ListRootDirectory (d : Disk) : List QFATFileInfo :=
  let rootDirOffset := fat16CalculateRootDirOffset d
  let rootEntryCount := readRootEntryCount d
  let rootEntryCount := if rootEntryCount = 0 then 512 else rootEntryCount
  readDirectoryEntries d rootDirOffset (rootEntryCount * ENTRY_SIZE)

/-- The cluster-chain walk of `QFAT16FileSystem::listDirectory(quint16)`
(qfat16filesystem.cpp:109).  An iteration adds `clusterSize` to `totalSize`
and the walk stops at `DATA_AREA_SIZE` (= 65536) bytes, so 65537 fuel covers
every iteration the source can make. -/
def fat16ListDirectoryAux (d : Disk) (clusterSize : Nat) :
    Nat → Nat → Nat → List QFATFileInfo
  | _, _, 0 => []
  | currentCluster, totalSize, Nat.succ fuel =>
    if 2 ≤ currentCluster ∧ currentCluster < 0xFFF8 ∧ totalSize < 65536 then
      let entries := readDirectoryEntries d (fat16CalculateClusterOffset d currentCluster) clusterSize
      let keep := entries.takeWhile (fun en => !(en.name.isEmpty && en.size == 0))
      let foundEnd := entries.any (fun en => en.name.isEmpty && en.size == 0)
      if foundEnd then keep
      else
        let next := fat16ReadNextCluster d currentCluster
        if next = 0 then keep
        else keep ++ fat16ListDirectoryAux d clusterSize next (totalSize + clusterSize) fuel
    else []

/-- `QFAT16FileSystem::listDirectory(quint16)` (qfat16filesystem.cpp:109). -/
def fat16ListDirectory (d : Disk) (cluster : Nat) : List QFATFileInfo :=
  if cluster < 2 then []
  else
    let clusterSize := readSectorsPerCluster d * readBytesPerSector d
    fat16ListDirectoryAux d clusterSize cluster 0 65537

-- ============================================================================
-- FAT16 state and path resolution
-- ============================================================================

/-- The mutable per-mount state of a `QFAT16FileSystem`: the device bytes and
the in-memory long-to-short name map (`m_longToShortNameMap`, keys
lowercased). -/
structure FAT16State where
  disk : Disk
  longToShortNameMap : List (List Nat × List Nat) := []

/-- `QMap::value(key)` with default. -/
def mapValueD (m : List (List Nat × List Nat)) (k dflt : List Nat) : List Nat :=
  ((m.find? (fun p => p.1 == k)).map (fun p => p.2)).getD dflt

/-- `QMap::contains`. -/
def mapContains (m : List (List Nat × List Nat)) (k : List Nat) : Bool :=
  (m.find? (fun p => p.1 == k)).isSome

/-- `QMap::operator[]` assignment (replaces the previous binding). -/
def mapInsert (m : List (List Nat × List Nat)) (k v : List Nat) : List (List Nat × List Nat) :=
  (k, v) :: m.filter (fun p => p.1 ≠ k)

/-- `QMap::remove`. -/
def mapRemove (m : List (List Nat × List Nat)) (k : List Nat) : List (List Nat × List Nat) :=
  m.filter (fun p => p.1 ≠ k)

/-- The component walk of `QFAT16FileSystem::findFileByPath`
(qfat16filesystem.cpp:172), including the long-to-short map fallback. -/
def fat16FindLoop (st : FAT16State) : List QFATFileInfo → List (List Nat) →
    QFATFileInfo × QFATError
  | _, [] => (default, QFATError.FileNotFound)
  | currentDir, p :: rest =>
    let found := findInDirectory currentDir p
    let found :=
      if found.name.isEmpty ∧ mapContains st.longToShortNameMap (listToLower p) then
        findInDirectory currentDir (mapValueD st.longToShortNameMap (listToLower p) [])
      else found
    if found.name.isEmpty then
      (default, if rest.isEmpty then QFATError.FileNotFound else QFATError.DirectoryNotFound)
    else if rest.isEmpty then (found, QFATError.None)
    else if !found.isDirectory then (default, QFATError.DirectoryNotFound)
    else fat16FindLoop st (fat16ListDirectory st.disk (found.cluster % 65536)) rest

/-- `QFAT16FileSystem::findFileByPath` (qfat16filesystem.cpp:172); the model
assumes an open device. -/
def fat16FindFileByPath (st : FAT16State) (path : List Nat) : QFATFileInfo × QFATError :=
  let parts := splitPath path
  if parts.isEmpty then (default, QFATError.InvalidPath)
  else fat16FindLoop st (fat16ListRootDirectory st.disk) parts

/-- `QFAT16FileSystem::exists` (qfat16filesystem.cpp:788). -/
def fat16Exists (st : FAT16State) (path : List Nat) : Bool :=
  let (info, error) := fat16FindFileByPath st path
  error = QFATError.None && !info.name.isEmpty

-- ============================================================================
-- FAT16 chains and allocation (qfat16filesystem.cpp:230, 316..422)
-- ============================================================================

/-- The chain walk of `QFAT16FileSystem::getClusterChain`
(qfat16filesystem.cpp:230); the fuel is the source's `maxClusters = 65536`
bound on the chain length. -/
def fat16GetClusterChainAux (d : Disk) : Nat → Nat → List Nat → List Nat
  | 0, _, chain => chain
  | Nat.succ fuel, currentCluster, chain =>
    if 2 ≤ currentCluster ∧ currentCluster < 0xFFF8 then
      let chain := chain ++ [currentCluster]
      let next := fat16ReadNextCluster d currentCluster
      if next = 0 then chain
      else fat16GetClusterChainAux d fuel next chain
    else chain

/-- `QFAT16FileSystem::getClusterChain` (qfat16filesystem.cpp:230). -/
def fat16GetClusterChain (d : Disk) (startCluster : Nat) : List Nat :=
  if startCluster < 2 then []
  else fat16GetClusterChainAux d 65536 startCluster []

/-- `QFAT16FileSystem::freeClusterChain` (qfat16filesystem.cpp:411): zero the
FAT entry of every cluster of the chain read from the current FAT (writes
always succeed in the model). -/
def fat16FreeClusterChain (d : Disk) (startCluster : Nat) : Disk :=
  (fat16GetClusterChain d startCluster).foldl (fun d c => fat16WriteNextCluster d c 0) d

/-- `QFAT16FileSystem::findFreeCluster` (qfat16filesystem.cpp:316): first
cluster at or above 2 whose 16-bit FAT entry is zero, scanning below both
`totalClusters` and 0xFFF0; 0 when none. -/
def fat16FindFreeCluster (d : Disk) : Nat :=
  let bytesPerSector := readBytesPerSector d
  let reservedSectors := readReservedSectors d
  let sectorsPerFAT := read16 d BPB_SECTORS_PER_FAT_OFFSET
  let fatOffset := reservedSectors * bytesPerSector
  let totalClusters := sectorsPerFAT * bytesPerSector / 2
  ((List.range' 2 (min totalClusters 0xFFF0 - 2)).find?
    (fun cluster => read16 d (fatOffset + cluster * 2) = 0)).getD 0

/-- The allocation loop of `QFAT16FileSystem::allocateClusterChain`
(qfat16filesystem.cpp:373): find a free cluster, mark it end-of-chain
(0xFFFF), repeat; on exhaustion free the chain found so far starting from
its first cluster and return the empty list. -/
def fat16AllocLoop : Nat → List Nat → Disk → List Nat × Disk
  | 0, chain, d => (chain, d)
  | Nat.succ remaining, chain, d =>
    let freeCluster := fat16FindFreeCluster d
    if freeCluster = 0 then
      if chain.isEmpty then ([], d)
      else ([], fat16FreeClusterChain d (chain.headD 0))
    else
      let chain := chain ++ [freeCluster]
      let d := fat16WriteNextCluster d freeCluster 0xFFFF
      fat16AllocLoop remaining chain d

/-- The linking loop of `QFAT16FileSystem::allocateClusterChain`
(qfat16filesystem.cpp:404): write `chain[i] -> chain[i+1]`. -/
def fat16LinkChain : List Nat → Disk → Disk
  | a :: b :: rest, d => fat16LinkChain (b :: rest) (fat16WriteNextCluster d a b)
  | _, d => d

/-- `QFAT16FileSystem::allocateClusterChain` (qfat16filesystem.cpp:373). -/
def fat16AllocateClusterChain (d : Disk) (numClusters : Nat) : List Nat × Disk :=
  if numClusters = 0 then ([], d)
  else
    let (chain, d) := fat16AllocLoop numClusters [] d
    (chain, fat16LinkChain chain d)

/-- `QFAT16FileSystem::writeClusterData` (qfat16filesystem.cpp:364) with its
default `offset = 0`. -/
def fat16WriteClusterData (d : Disk) (cluster : Nat) (data : List Nat) : Disk :=
  writeBytes d (fat16CalculateClusterOffset d cluster) data

-- ============================================================================
-- FAT16 directory-entry writing (qfat16filesystem.cpp:424..660)
-- ============================================================================

/-- `QChar::toLatin1` (0 for characters outside latin-1). -/
def toLatin1 (c : Nat) : Nat := if c ≤ 255 then c else 0

/-- The 32-byte short directory entry `QFAT16FileSystem::createDirectoryEntry`
(qfat16filesystem.cpp:424) builds: name split at the first `.`, space-padded
8.3 name, attribute byte, FAT-encoded creation and modification stamps
(falling back to the current time `now` when the record's stamp is invalid),
low 16 bits of the first cluster, 32-bit size; all other bytes zero. -/
def createDirectoryEntryBytes (fileInfo : QFATFileInfo) (now : DateTime) : List Nat :=
  let name := listToUpper fileInfo.name
  let dotPos := name.findIdx (· = 46)
  let hasDot := dotPos < name.length
  let baseName := if hasDot then name.take dotPos else name
  let ext := if hasDot then name.drop (dotPos + 1) else []
  let mdt := encodeFATDateTime (if dtValid fileInfo.modified then fileInfo.modified else now)
  let cdt := encodeFATDateTime (if dtValid fileInfo.created then fileInfo.created else now)
  let modDate := mdt.1
  let modTime := mdt.2
  let createDate := cdt.1
  let createTime := cdt.2
  let cluster := fileInfo.cluster % 65536
  (List.range ENTRY_SIZE).map (fun i =>
    if i < 8 then toLatin1 (baseName.getD i 32)
    else if i < 11 then toLatin1 (ext.getD (i - 8) 32)
    else if i = ENTRY_ATTRIBUTE_OFFSET then fileInfo.attributes % 256
    else if i = ENTRY_CREATION_DATE_TIME_OFFSET then createTime % 256
    else if i = ENTRY_CREATION_DATE_TIME_OFFSET + 1 then createTime / 256 % 256
    else if i = ENTRY_CREATION_DATE_TIME_OFFSET + 2 then createDate % 256
    else if i = ENTRY_CREATION_DATE_TIME_OFFSET + 3 then createDate / 256 % 256
    else if i = ENTRY_WRITTEN_DATE_TIME_OFFSET then modTime % 256
    else if i = ENTRY_WRITTEN_DATE_TIME_OFFSET + 1 then modTime / 256 % 256
    else if i = ENTRY_WRITTEN_DATE_TIME_OFFSET + 2 then modDate % 256
    else if i = ENTRY_WRITTEN_DATE_TIME_OFFSET + 3 then modDate / 256 % 256
    else if i = ENTRY_CLUSTER_OFFSET then cluster % 256
    else if i = ENTRY_CLUSTER_OFFSET + 1 then cluster / 256 % 256
    else if i = ENTRY_SIZE_OFFSET then fileInfo.size % 256
    else if i = ENTRY_SIZE_OFFSET + 1 then fileInfo.size / 256 % 256
    else if i = ENTRY_SIZE_OFFSET + 2 then fileInfo.size / 65536 % 256
    else if i = ENTRY_SIZE_OFFSET + 3 then fileInfo.size / 16777216 % 256
    else 0)

/-- `QFAT16FileSystem::createDirectoryEntry` (qfat16filesystem.cpp:424). -/
def fat16CreateDirectoryEntry (d : Disk) (dirOffset : Nat) (fileInfo : QFATFileInfo)
    (now : DateTime) : Disk :=
  writeBytes d dirOffset (createDirectoryEntryBytes fileInfo now)

/-- The directory offset and slot count `updateDirectoryEntry`,
`deleteDirectoryEntry` and `modifyDirectoryEntryName` all derive from the
parent path (qfat16filesystem.cpp:489..511): the fixed root region for
`/`, otherwise the parent directory's first cluster with one cluster's
worth of slots.  `none` when the parent cannot be resolved. -/
def fat16DirRegion (st : FAT16State) (parentPath : List Nat) : Option (Nat × Nat) :=
  if parentPath.isEmpty ∨ parentPath = qstr "/" ∨ parentPath = qstr "\\" then
    some (fat16CalculateRootDirOffset st.disk, readRootEntryCount st.disk)
  else
    let (dirInfo, error) := fat16FindFileByPath st parentPath
    if error ≠ QFATError.None ∨ !dirInfo.isDirectory then none
    else
      let clusterSize := readBytesPerSector st.disk * readSectorsPerCluster st.disk
      some (fat16CalculateClusterOffset st.disk (dirInfo.cluster % 65536),
        clusterSize / ENTRY_SIZE)

/-- Result of the scan loop of `updateDirectoryEntry`
(qfat16filesystem.cpp:530..597). -/
inductive UpdScanResult where
  | foundExisting (entryOffset : Nat)
  | finished (freeSlotOffset : Nat) (foundFree : Bool)
deriving DecidableEq

/-- The scan loop of `updateDirectoryEntry` (qfat16filesystem.cpp:530):
track the start of the current run of free or deleted slots and whether a
run of `totalEntriesNeeded` consecutive free slots was seen; stop at the
end-of-directory sentinel or on the matching short name. -/
def fat16UpdScan (d : Disk) (targetUpper : List Nat) (totalEntriesNeeded : Nat) :
    Nat → Nat → Nat → Nat → Bool → UpdScanResult
  | 0, _, freeSlotOffset, _, foundFree => .finished freeSlotOffset foundFree
  | Nat.succ fuel, entryOffset, freeSlotOffset, consec, foundFree =>
    let e := readEntryBytes d entryOffset
    let firstByte := entryByte e ENTRY_NAME_OFFSET
    if firstByte = ENTRY_END_OF_DIRECTORY ∨ firstByte = ENTRY_DELETED then
      let freeSlotOffset := if consec = 0 then entryOffset else freeSlotOffset
      let consec := consec + 1
      let foundFree := foundFree || decide (totalEntriesNeeded ≤ consec)
      if firstByte = ENTRY_END_OF_DIRECTORY then .finished freeSlotOffset foundFree
      else fat16UpdScan d targetUpper totalEntriesNeeded fuel (entryOffset + ENTRY_SIZE)
        freeSlotOffset consec foundFree
    else if isLongFileNameEntry e then
      fat16UpdScan d targetUpper totalEntriesNeeded fuel (entryOffset + ENTRY_SIZE)
        freeSlotOffset 0 foundFree
    else if listToUpper (entryName83 e) = targetUpper then .foundExisting entryOffset
    else fat16UpdScan d targetUpper totalEntriesNeeded fuel (entryOffset + ENTRY_SIZE)
      freeSlotOffset 0 foundFree

/-- The LFN-writing loop of `updateDirectoryEntry` (qfat16filesystem.cpp:611):
write entries with sequence `lfnEntriesNeeded` down to 1 at ascending slot
offsets; returns the disk and the offset following the chain. -/
def fat16WriteLFNEntries (longName : List Nat) (checksum lfnEntriesNeeded : Nat) :
    Nat → Nat → Disk → Disk × Nat
  | 0, currentOffset, d => (d, currentOffset)
  | Nat.succ k, currentOffset, d =>
    let seq := k + 1
    let lfnEntry := writeLFNEntry longName seq checksum (seq = lfnEntriesNeeded)
    fat16WriteLFNEntries longName checksum lfnEntriesNeeded k (currentOffset + ENTRY_SIZE)
      (writeBytes d currentOffset lfnEntry)

/-- The fallback rescan of `updateDirectoryEntry` (qfat16filesystem.cpp:639):
first free or deleted slot, scanning at most `fuel` slots. -/
def fat16SingleSlotScan (d : Disk) : Nat → Nat → Option Nat
  | 0, _ => none
  | Nat.succ fuel, entryOffset =>
    let e := readEntryBytes d entryOffset
    let firstByte := entryByte e ENTRY_NAME_OFFSET
    if firstByte = ENTRY_END_OF_DIRECTORY ∨ firstByte = ENTRY_DELETED then some entryOffset
    else fat16SingleSlotScan d fuel (entryOffset + ENTRY_SIZE)

/-- `QFAT16FileSystem::updateDirectoryEntry` (qfat16filesystem.cpp:489).
LFN entries are written only when the short name carries a `~` numeric tail
and differs from the long name; otherwise a short-only entry is written and
the long-to-short map records the long name. -/
def fat16UpdateDirectoryEntry (st : FAT16State) (parentPath : List Nat)
    (fileInfo : QFATFileInfo) (now : DateTime) : Bool × FAT16State :=
  match fat16DirRegion st parentPath with
  | none => (false, st)
  | some (dirOffset, maxEntries) =>
    let needsLFN := fileInfo.name.contains 126 && !fileInfo.longName.isEmpty
      && listToUpper fileInfo.longName ≠ listToUpper fileInfo.name
    let lfnEntriesNeeded := if needsLFN then calculateLFNEntriesNeeded fileInfo.longName else 0
    let totalEntriesNeeded := lfnEntriesNeeded + 1
    match fat16UpdScan st.disk (listToUpper fileInfo.name) totalEntriesNeeded
        maxEntries dirOffset 0 0 false with
    | .foundExisting entryOffset =>
      (true, { st with disk := fat16CreateDirectoryEntry st.disk entryOffset fileInfo now })
    | .finished freeSlotOffset foundFree =>
      if foundFree then
        if needsLFN then
          let checksum := calculateLFNChecksum fileInfo.name
          let (d, currentOffset) := fat16WriteLFNEntries fileInfo.longName checksum
            lfnEntriesNeeded lfnEntriesNeeded freeSlotOffset st.disk
          (true, { st with disk := fat16CreateDirectoryEntry d currentOffset fileInfo now })
        else
          let m :=
            if !fileInfo.longName.isEmpty
                && listToLower fileInfo.longName ≠ listToLower fileInfo.name then
              mapInsert st.longToShortNameMap (listToLower fileInfo.longName) fileInfo.name
            else st.longToShortNameMap
          (true, { disk := fat16CreateDirectoryEntry st.disk freeSlotOffset fileInfo now
                   longToShortNameMap := m })
      else if needsLFN then
        match fat16SingleSlotScan st.disk maxEntries dirOffset with
        | some entryOffset =>
          (true, { disk := fat16CreateDirectoryEntry st.disk entryOffset fileInfo now
                   longToShortNameMap :=
                     mapInsert st.longToShortNameMap (listToLower fileInfo.longName)
                       fileInfo.name })
        | none => (false, st)
      else (false, st)

-- ============================================================================
-- FAT16 writeFile (qfat16filesystem.cpp:662)
-- ============================================================================

/-- The data-writing loop inside `writeFile` (qfat16filesystem.cpp:723):
write each cluster's slice of `data`, zero-padded to the cluster size. -/
def fat16WriteDataLoop (clusterSize : Nat) (data : List Nat) :
    List Nat → Nat → Disk → Disk
  | [], _, d => d
  | c :: rest, bytesWritten, d =>
    let bytesToWrite := min clusterSize (data.length - bytesWritten)
    let clusterData := (data.drop bytesWritten).take bytesToWrite
    let clusterData := clusterData ++ List.replicate (clusterSize - clusterData.length) 0
    fat16WriteDataLoop clusterSize data rest (bytesWritten + bytesToWrite)
      (fat16WriteClusterData d c clusterData)

/-- `QFAT16FileSystem::writeFile` (qfat16filesystem.cpp:662), with the
current wall-clock time passed as `now`.  Returns the success flag, the
reported error and the final state.  Note the source frees the existing
entry's cluster chain whenever the path resolves, without checking whether
the entry is a directory. -/
def fat16WriteFile (st : FAT16State) (path data : List Nat) (now : DateTime) :
    Bool × QFATError × FAT16State :=
  let parts := splitPath path
  if parts.isEmpty then (false, QFATError.InvalidPath, st)
  else
    let fileName := parts.getLastD []
    let parentPath := if 1 < parts.length then joinPath parts.dropLast else qstr "/"
    let (existingFile, checkError) := fat16FindFileByPath st path
    let fileExists := checkError = QFATError.None
    let clusterSize := readBytesPerSector st.disk * readSectorsPerCluster st.disk
    let numClusters := (data.length + clusterSize - 1) / clusterSize
    let d := st.disk
    let d := if fileExists ∧ 2 ≤ existingFile.cluster then
        fat16FreeClusterChain d (existingFile.cluster % 65536)
      else d
    let afterAlloc : (List Nat × Disk) ⊕ Disk :=
      if 0 < numClusters then
        let (clusters, d) := fat16AllocateClusterChain d numClusters
        if clusters.isEmpty then Sum.inr d
        else Sum.inl (clusters, fat16WriteDataLoop clusterSize data clusters 0 d)
      else Sum.inl ([], d)
    match afterAlloc with
    | Sum.inr d =>
      (false, QFATError.InsufficientSpace, { st with disk := d })
    | Sum.inl (clusters, d) =>
      let firstCluster := clusters.headD 0
      let st := { st with disk := d }
      let parentEntries :=
        if parentPath = qstr "/" then fat16ListRootDirectory st.disk
        else
          let (parentInfo, parentError) := fat16FindFileByPath st parentPath
          if parentError = QFATError.None ∧ parentInfo.isDirectory then
            fat16ListDirectory st.disk (parentInfo.cluster % 65536)
          else []
      let fileInfo : QFATFileInfo :=
        { name := if fileExists then existingFile.name else generateShortName fileName parentEntries
          longName := fileName
          isDirectory := false
          size := data.length
          cluster := firstCluster
          attributes := ENTRY_ATTRIBUTE_ARCHIVE
          modified := now
          created := if fileExists then existingFile.created else now }
      let (ok, st) := fat16UpdateDirectoryEntry st parentPath fileInfo now
      if !ok then
        let d := if 2 ≤ firstCluster then fat16FreeClusterChain st.disk firstCluster else st.disk
        (false, QFATError.WriteError, { st with disk := d })
      else (true, QFATError.None, st)

-- ============================================================================
-- FAT16 deletion (qfat16filesystem.cpp:800..1139)
-- ============================================================================

/-- The scan loop of `QFAT16FileSystem::deleteDirectoryEntry`
(qfat16filesystem.cpp:849): skip deleted and LFN entries, stop at the
end-of-directory sentinel, return the offset of the short entry whose 8.3
name matches. -/
def fat16DeleteScan (d : Disk) (targetUpper : List Nat) : Nat → Nat → Option Nat
  | 0, _ => none
  | Nat.succ fuel, entryOffset =>
    let e := readEntryBytes d entryOffset
    let firstByte := entryByte e ENTRY_NAME_OFFSET
    if firstByte = ENTRY_END_OF_DIRECTORY then none
    else if firstByte = ENTRY_DELETED then fat16DeleteScan d targetUpper fuel (entryOffset + ENTRY_SIZE)
    else if isLongFileNameEntry e then fat16DeleteScan d targetUpper fuel (entryOffset + ENTRY_SIZE)
    else if listToUpper (entryName83 e) = targetUpper then some entryOffset
    else fat16DeleteScan d targetUpper fuel (entryOffset + ENTRY_SIZE)

/-- `QFAT16FileSystem::deleteDirectoryEntry` (qfat16filesystem.cpp:800):
find the short entry by name and write the single byte 0xE5 over byte 0 of
that entry. -/
def fat16DeleteDirectoryEntry (st : FAT16State) (path : List Nat) : Bool × FAT16State :=
  let parts := splitPath path
  if parts.isEmpty then (false, st)
  else
    let fileName := parts.getLastD []
    let parentPath := if 1 < parts.length then joinPath parts.dropLast else qstr "/"
    match fat16DirRegion st parentPath with
    | none => (false, st)
    | some (dirOffset, maxEntries) =>
      match fat16DeleteScan st.disk (listToUpper fileName) maxEntries dirOffset with
      | none => (false, st)
      | some foundOffset => (true, { st with disk := dwrite st.disk foundOffset ENTRY_DELETED })

/-- `QFAT16FileSystem::isDirectoryEmpty` (qfat16filesystem.cpp:1083). -/
def fat16IsDirectoryEmpty (d : Disk) (cluster : Nat) : Bool :=
  if cluster < 2 then true
  else (fat16ListDirectory d cluster).isEmpty

/-- `QFAT16FileSystem::deleteFile` (qfat16filesystem.cpp:1095): resolve the
path, refuse a non-empty directory (`InvalidPath`), free the cluster chain,
then mark the directory entry deleted. -/
def fat16DeleteFile (st : FAT16State) (path : List Nat) : Bool × QFATError × FAT16State :=
  let (fileInfo, error) := fat16FindFileByPath st path
  if error ≠ QFATError.None then (false, error, st)
  else if fileInfo.isDirectory ∧ !fat16IsDirectoryEmpty st.disk (fileInfo.cluster % 65536) then
    (false, QFATError.InvalidPath, st)
  else
    let st := if 2 ≤ fileInfo.cluster then
        { st with disk := fat16FreeClusterChain st.disk (fileInfo.cluster % 65536) }
      else st
    let (ok, st) := fat16DeleteDirectoryEntry st path
    if ok then (true, QFATError.None, st)
    else (false, QFATError.WriteError, st)

-- ============================================================================
-- FAT12 path resolution (qfat12filesystem.cpp)
-- ============================================================================

/-- `QFAT12FileSystem::readRootDirSector` (qfat12filesystem.cpp:26). -/
def fat12ReadRootDirSector (d : Disk) : Nat :=
  let reservedSectors := readReservedSectors d
  let numFATs := readNumberOfFATs d
  let sectorsPerFAT := read16 d BPB_SECTORS_PER_FAT_OFFSET
  reservedSectors + numFATs * sectorsPerFAT

/-- `QFAT12FileSystem::calculateRootDirOffset` (qfat12filesystem.cpp:38). -/
def fat12CalculateRootDirOffset (d : Disk) : Nat :=
  fat12ReadRootDirSector d * readBytesPerSector d

/-- `QFAT12FileSystem::calculateClusterOffset` (qfat12filesystem.cpp:46). -/
def fat12CalculateClusterOffset (d : Disk) (cluster : Nat) : Nat :=
  if cluster < 2 then 0
  else
    let bytesPerSector := readBytesPerSector d
    let sectorsPerCluster := readSectorsPerCluster d
    let reservedSectors := readReservedSectors d
    let numFATs := readNumberOfFATs d
    let rootEntryCount := readRootEntryCount d
    let sectorsPerFAT := read16 d BPB_SECTORS_PER_FAT_OFFSET
    let rootDirSectors := (rootEntryCount * 32 + (bytesPerSector - 1)) / bytesPerSector
    let firstDataSector := reservedSectors + numFATs * sectorsPerFAT + rootDirSectors
    let clusterSector := firstDataSector + (cluster - 2) * sectorsPerCluster
    clusterSector * bytesPerSector

/-- `QFAT12FileSystem::listRootDirectory` (qfat12filesystem.cpp:106). -/
def fat12ListRootDirectory (d : Disk) : List QFATFileInfo :=
  readDirectoryEntries d (fat12CalculateRootDirOffset d) (readRootEntryCount d * 32)

/-- The chain walk of `QFAT12FileSystem::getClusterChain`
(qfat12filesystem.cpp:196); the fuel is the source's `maxClusters = 0x0FF0`
bound. -/
def fat12GetClusterChainAux (d : Disk) : Nat → Nat → List Nat → List Nat
  | 0, _, chain => chain
  | Nat.succ fuel, currentCluster, chain =>
    if 2 ≤ currentCluster ∧ currentCluster < 0x0FF8 then
      let chain := chain ++ [currentCluster]
      let next := fat12ReadNextCluster d currentCluster
      if next = 0 then chain
      else fat12GetClusterChainAux d fuel next chain
    else chain

/-- `QFAT12FileSystem::getClusterChain` (qfat12filesystem.cpp:196). -/
def fat12GetClusterChain (d : Disk) (startCluster : Nat) : List Nat :=
  if startCluster < 2 then []
  else fat12GetClusterChainAux d 0x0FF0 startCluster []

/-- `QFAT12FileSystem::listDirectory(quint16)` (qfat12filesystem.cpp:127):
concatenate the decoded entries of every cluster of the chain. -/
def fat12ListDirectory (d : Disk) (cluster : Nat) : List QFATFileInfo :=
  if cluster < 2 then []
  else
    let bytesPerSector := readBytesPerSector d
    let sectorsPerCluster := readSectorsPerCluster d
    let clusterSize := bytesPerSector * sectorsPerCluster
    (fat12GetClusterChain d cluster).flatMap
      (fun c => readDirectoryEntries d (fat12CalculateClusterOffset d c) clusterSize)

/-- The component walk of `QFAT12FileSystem::findFileByPath`
(qfat12filesystem.cpp:150); unlike FAT16/FAT32 there is no long-to-short
map fallback. -/
def fat12FindLoop (d : Disk) : List QFATFileInfo → List (List Nat) →
    QFATFileInfo × QFATError
  | _, [] => (default, QFATError.FileNotFound)
  | currentDir, p :: rest =>
    let found := findInDirectory currentDir p
    if found.name.isEmpty then
      (default, if rest.isEmpty then QFATError.FileNotFound else QFATError.DirectoryNotFound)
    else if rest.isEmpty then (found, QFATError.None)
    else if !found.isDirectory then (default, QFATError.DirectoryNotFound)
    else fat12FindLoop d (fat12ListDirectory d (found.cluster % 65536)) rest

/-- `QFAT12FileSystem::findFileByPath` (qfat12filesystem.cpp:150). -/
def fat12FindFileByPath (d : Disk) (path : List Nat) : QFATFileInfo × QFATError :=
  let parts := splitPath path
  if parts.isEmpty then (default, QFATError.InvalidPath)
  else fat12FindLoop d (fat12ListRootDirectory d) parts

/-- `QFAT12FileSystem::exists` (qfat12filesystem.cpp:309): the root path and
the empty path are special-cased to `true`. -/
def fat12Exists (d : Disk) (path : List Nat) : Bool :=
  if path = qstr "/" ∨ path.isEmpty then true
  else
    let (info, error) := fat12FindFileByPath d path
    error = QFATError.None && !info.name.isEmpty

-- ============================================================================
-- FAT32 path resolution (qfat32filesystem.cpp)
-- ============================================================================

/-- `QFAT32FileSystem::readRootDirCluster` (qfat32filesystem.cpp:26). -/
def fat32ReadRootDirCluster (d : Disk) : Nat :=
  read32 d BPB_ROOT_DIRECTORY_CLUSTER_OFFSET

/-- `QFAT32FileSystem::calculateClusterOffset` (qfat32filesystem.cpp:35). -/
def fat32CalculateClusterOffset (d : Disk) (cluster : Nat) : Nat :=
  let bytesPerSector := readBytesPerSector d
  let sectorsPerCluster := readSectorsPerCluster d
  let reservedSectors := readReservedSectors d
  let numFATs := readNumberOfFATs d
  let sectorsPerFAT := read32 d BPB_SECTORS_PER_FAT32_OFFSET
  let dataAreaStart := reservedSectors + numFATs * sectorsPerFAT
  let dataAreaOffset := dataAreaStart * bytesPerSector
  let clusterOffset := (cluster - 2) * sectorsPerCluster * bytesPerSector
  dataAreaOffset + clusterOffset

/-- The cluster-chain walk of `QFAT32FileSystem::listDirectory(quint32)`
(qfat32filesystem.cpp:88). -/
def fat32ListDirectoryAux (d : Disk) (clusterSize : Nat) :
    Nat → Nat → Nat → List QFATFileInfo
  | _, _, 0 => []
  | currentCluster, totalSize, Nat.succ fuel =>
    if 2 ≤ currentCluster ∧ currentCluster < 0x0FFFFFF8 ∧ totalSize < 65536 then
      let entries := readDirectoryEntries d (fat32CalculateClusterOffset d currentCluster) clusterSize
      let keep := entries.takeWhile (fun en => !(en.name.isEmpty && en.size == 0))
      let foundEnd := entries.any (fun en => en.name.isEmpty && en.size == 0)
      if foundEnd then keep
      else
        let next := fat32ReadNextCluster d currentCluster
        if next = 0 then keep
        else keep ++ fat32ListDirectoryAux d clusterSize next (totalSize + clusterSize) fuel
    else []

/-- `QFAT32FileSystem::listDirectory(quint32)` (qfat32filesystem.cpp:88). -/
def fat32ListDirectory (d : Disk) (cluster : Nat) : List QFATFileInfo :=
  if cluster < 2 then []
  else
    let clusterSize := readSectorsPerCluster d * readBytesPerSector d
    fat32ListDirectoryAux d clusterSize cluster 0 65537

/-- `QFAT32FileSystem::listRootDirectory` (qfat32filesystem.cpp:77). -/
def fat32ListRootDirectory (d : Disk) : List QFATFileInfo :=
  fat32ListDirectory d (fat32ReadRootDirCluster d)

/-- The per-mount state of a `QFAT32FileSystem` (device bytes and
`m_longToShortNameMap`). -/
structure FAT32State where
  disk : Disk
  longToShortNameMap : List (List Nat × List Nat) := []

/-- The component walk of `QFAT32FileSystem::findFileByPath`
(qfat32filesystem.cpp:151), including the long-to-short map fallback. -/
def fat32FindLoop (st : FAT32State) : List QFATFileInfo → List (List Nat) →
    QFATFileInfo × QFATError
  | _, [] => (default, QFATError.FileNotFound)
  | currentDir, p :: rest =>
    let found := findInDirectory currentDir p
    let found :=
      if found.name.isEmpty ∧ mapContains st.longToShortNameMap (listToLower p) then
        findInDirectory currentDir (mapValueD st.longToShortNameMap (listToLower p) [])
      else found
    if found.name.isEmpty then
      (default, if rest.isEmpty then QFATError.FileNotFound else QFATError.DirectoryNotFound)
    else if rest.isEmpty then (found, QFATError.None)
    else if !found.isDirectory then (default, QFATError.DirectoryNotFound)
    else fat32FindLoop st (fat32ListDirectory st.disk found.cluster) rest

/-- `QFAT32FileSystem::findFileByPath` (qfat32filesystem.cpp:151). -/
def fat32FindFileByPath (st : FAT32State) (path : List Nat) : QFATFileInfo × QFATError :=
  let parts := splitPath path
  if parts.isEmpty then (default, QFATError.InvalidPath)
  else fat32FindLoop st (fat32ListRootDirectory st.disk) parts

/-- `QFAT32FileSystem::exists` (qfat32filesystem.cpp:739). -/
def fat32Exists (st : FAT32State) (path : List Nat) : Bool :=
  let (info, error) := fat32FindFileByPath st path
  error = QFATError.None && !info.name.isEmpty

-- ============================================================================
-- Concrete volume fixtures
-- ============================================================================

/-- The all-zero device. -/
def zeroDisk : Disk := fun _ => 0

/-- A small FAT16 geometry: 32-byte sectors, 1 sector per cluster, 1
reserved sector, 2 FAT copies of 1 sector each, 8 root entries.  FAT copy 0
occupies bytes 32..63 (16 slots), copy 1 bytes 64..95, the root directory
bytes 96..351, and cluster `c` starts at byte `352 + 32*(c-2)`.  All FAT
slots and directory slots are zero (a freshly formatted empty volume). -/
def fat16Geom : Disk := fun a =>
  if a = 0x0B then 32
  else if a = 0x0D then 1
  else if a = 0x0E then 1
  else if a = 0x10 then 2
  else if a = 0x11 then 8
  else if a = 0x16 then 1
  else 0

/-- A fixed wall-clock instant passed to the write operations as the
current time. -/
def cNow : DateTime := ⟨2024, 6, 1, 12, 30, 2⟩

/-- `fat16Geom` with one root entry: a directory `DIR` with first cluster 2,
whose FAT entry (slot 2 of both copies) holds the end-of-chain value
0xFFF8. -/
def c1Disk : Disk := fun a =>
  if a = 0x0B then 32
  else if a = 0x0D then 1
  else if a = 0x0E then 1
  else if a = 0x10 then 2
  else if a = 0x11 then 8
  else if a = 0x16 then 1
  else if a = 36 then 0xF8 else if a = 37 then 0xFF
  else if a = 68 then 0xF8 else if a = 69 then 0xFF
  else if a = 96 then 68 else if a = 97 then 73 else if a = 98 then 82
  else if 99 ≤ a ∧ a ≤ 106 then 32
  else if a = 107 then ENTRY_ATTRIBUTE_DIRECTORY
  else if a = 122 then 2
  else 0

def c1St : FAT16State := ⟨c1Disk, []⟩

/-- `fat16Geom` whose FAT has exactly two free clusters, 5 and 9: every
other slot of clusters 0..15 holds 0xFFF8, on both copies (slot `c` of copy
0 is at bytes `32 + 2c`, of copy 1 at `64 + 2c`). -/
def c2Disk : Disk := fun a =>
  if a = 0x0B then 32
  else if a = 0x0D then 1
  else if a = 0x0E then 1
  else if a = 0x10 then 2
  else if a = 0x11 then 8
  else if a = 0x16 then 1
  else if 32 ≤ a ∧ a < 96 then
    (if a = 42 ∨ a = 43 ∨ a = 50 ∨ a = 51 ∨ a = 74 ∨ a = 75 ∨ a = 82 ∨ a = 83 then 0
     else if a % 2 = 0 then 0xF8 else 0xFF)
  else 0

/-- A FAT12 geometry with two FAT copies of one 32-byte sector each (copy 0
at bytes 32..63, copy 1 at 64..95), both all zero. -/
def c3Disk : Disk := fun a =>
  if a = 0x0B then 32
  else if a = 0x0D then 1
  else if a = 0x0E then 1
  else if a = 0x10 then 2
  else if a = 0x11 then 8
  else if a = 0x16 then 1
  else 0

/-- A FAT32 geometry: 64-byte sectors, 1 reserved sector, 2 FAT copies of 1
sector (copy 0 at bytes 64..127, copy 1 at 128..191), root cluster 2.  The
32-bit FAT slot of cluster 2 (bytes 72..75 and 136..139) holds 0xF0000000:
low 28 bits zero, top 4 bits set. -/
def c4Disk : Disk := fun a =>
  if a = 0x0B then 64
  else if a = 0x0D then 1
  else if a = 0x0E then 1
  else if a = 0x10 then 2
  else if a = 0x24 then 1
  else if a = 0x2C then 2
  else if a = 75 then 0xF0
  else if a = 139 then 0xF0
  else 0

/-- The short directory entry of the file `AB~1.TXT`: first cluster 3,
size 1, archive attribute. -/
def c5SDE : List Nat :=
  [65, 66, 126, 49, 32, 32, 32, 32, 84, 88, 84, 0x20,
   0, 0, 0, 0, 0, 0, 0, 0, 0, 0, 0, 0, 0, 0, 3, 0, 1, 0, 0, 0]

/-- `fat16Geom` with the FAT slot of cluster 3 set to 0xFFF8 on both copies
and a root directory holding an LFN chain (one entry, long name
`ab one.txt`, checksum of `AB~1.TXT`) immediately followed by the short
entry `AB~1.TXT`. -/
def c5Disk : Disk :=
  writeBytes
    (writeBytes
      (fun a =>
        if a = 0x0B then 32
        else if a = 0x0D then 1
        else if a = 0x0E then 1
        else if a = 0x10 then 2
        else if a = 0x11 then 8
        else if a = 0x16 then 1
        else if a = 38 then 0xF8 else if a = 39 then 0xFF
        else if a = 70 then 0xF8 else if a = 71 then 0xFF
        else 0)
      96 (writeLFNEntry (qstr "ab one.txt") 1 (calculateLFNChecksum (qstr "AB~1.TXT")) true))
    128 c5SDE

def c5St : FAT16State := ⟨c5Disk, []⟩

/-- A 32-byte short entry `README.TXT` whose attribute byte is 0x01
(read-only): a plain file entry, not a long-file-name entry. -/
def c6Entry : List Nat :=
  [82, 69, 65, 68, 77, 69, 32, 32, 84, 88, 84, ENTRY_ATTRIBUTE_READ_ONLY,
   0, 0, 0, 0, 0, 0, 0, 0, 0, 0, 0, 0, 0, 0, 2, 0, 5, 0, 0, 0]

/-- The fresh-volume state for the LFN round-trip scenario. -/
def c8St : FAT16State := ⟨fat16Geom, []⟩

/-- `write("/This Is A Long Filename.TXT", "L")` on the fresh volume. -/
def c8Res := fat16WriteFile c8St (qstr "/This Is A Long Filename.TXT") (qstr "L") cNow

/-- A valid date-time with even seconds in the FAT-representable range. -/
def c9DateTime : DateTime := ⟨1980, 1, 1, 12, 30, 42⟩

/-- The raw (pre-classification) 12-bit FAT entry of `cluster`, exactly the
value `QFAT12FileSystem::readNextCluster` extracts before it maps
end-of-chain and bad-cluster values: the 16-bit little-endian word at FAT
base plus `cluster + cluster/2`, shifted right 4 when `cluster` is odd,
masked with 0x0FFF when even. -/
def fat12RawEntry (d : Disk) (cluster : Nat) : Nat :=
  let w := read16 d (readReservedSectors d * readBytesPerSector d + (cluster + cluster / 2))
  if cluster % 2 = 1 then w >>> 4 else w &&& 0x0FFF

-- ============================================================================
-- Theorems
-- ============================================================================

/-- C7: the FAT12 `readNextCluster` reads the 16-bit little-endian word at
FAT base plus `cluster + cluster/2`, shifts right 4 when the cluster index
is odd and masks with 0x0FFF when even (this computation is
`fat12RawEntry`); it maps every value ≥ 0x0FF8 and the BAD value 0x0FF7 to
the distinguished end-of-chain marker 0xFFFF, returns small values (in
particular 0 for a free cluster) unchanged, and the marker is distinct from
every valid cluster number (the result is either 0xFFFF or below 0x0FF7). -/
theorem fat12ReadNextCluster_claim (d : Disk) (cluster : Nat) :
    ((0x0FF8 ≤ fat12RawEntry d cluster ∨ fat12RawEntry d cluster = 0x0FF7) →
      fat12ReadNextCluster d cluster = 0xFFFF) ∧
    (fat12RawEntry d cluster < 0x0FF7 →
      fat12ReadNextCluster d cluster = fat12RawEntry d cluster) ∧
    (fat12RawEntry d cluster = 0 → fat12ReadNextCluster d cluster = 0) ∧
    (fat12ReadNextCluster d cluster = 0xFFFF ∨ fat12ReadNextCluster d cluster < 0x0FF7) := by
  have he : fat12ReadNextCluster d cluster =
      (if 0x0FF8 ≤ fat12RawEntry d cluster then 0xFFFF
       else if fat12RawEntry d cluster = 0x0FF7 then 0xFFFF
       else fat12RawEntry d cluster) := rfl
  rw [he]
  split_ifs <;> refine ⟨?_, ?_, ?_, ?_⟩ <;> omega

/-- Witness for C7 at a concrete device: on the all-zero disk the raw entry
of cluster 2 is 0, below 0x0FF7, and the function returns it (0, free). -/
theorem fat12ReadNextCluster_claim_witness :
    fat12ReadNextCluster zeroDisk 2 = fat12RawEntry zeroDisk 2 ∧
      fat12ReadNextCluster zeroDisk 2 = 0 := by
  have h := fat12ReadNextCluster_claim zeroDisk 2
  exact ⟨h.2.1 (by decide), h.2.2.1 (by decide)⟩

/-- C9 (code bug): decoding the encoding is not the identity.  The witness
date-time 1980-01-01 12:30:42 is valid, has even seconds and a year in
1980..2107, yet `parseDateTime` applied to the words `encodeFATDateTime`
produces returns a record whose day is the original day plus one. -/
theorem parseDateTime_encode_not_roundtrip :
    dtValid c9DateTime = true ∧ c9DateTime.second % 2 = 0 ∧
    1980 ≤ c9DateTime.year ∧ c9DateTime.year ≤ 2107 ∧
    parseDateTime (encodeFATDateTime c9DateTime).1 (encodeFATDateTime c9DateTime).2
      ≠ c9DateTime ∧
    (parseDateTime (encodeFATDateTime c9DateTime).1 (encodeFATDateTime c9DateTime).2).day
      = c9DateTime.day + 1 ∧
    (parseDateTime (encodeFATDateTime c9DateTime).1 (encodeFATDateTime c9DateTime).2).second
      = c9DateTime.second := by decide

/-- C6 (counterexample): a read-only file entry (attribute byte 0x01) is
classified as a long-file-name entry by `isLongFileNameEntry`, although the
low four bits of its attribute byte are not 0x0F — the claimed
"if and only if low four bits equal 0x0F" fails. -/
theorem isLongFileNameEntry_readonly_misclassified :
    isLongFileNameEntry c6Entry = true ∧
      (entryByte c6Entry ENTRY_ATTRIBUTE_OFFSET) &&& 0x0F ≠ 0x0F := by decide

set_option maxRecDepth 8000

/-- C6 (amended): the decoder classifies an entry as LFN exactly when its
attribute byte has ANY of the four low bits set, i.e. any of the read-only,
hidden, system or volume-label flags. -/
theorem isLongFileNameEntry_iff_any_low_attribute_bit (a : Nat) (h : a < 256)
    (e : List Nat) (he : entryByte e ENTRY_ATTRIBUTE_OFFSET = a) :
    (isLongFileNameEntry e = true ↔
      (a &&& ENTRY_ATTRIBUTE_READ_ONLY ≠ 0 ∨ a &&& ENTRY_ATTRIBUTE_HIDDEN ≠ 0 ∨
       a &&& ENTRY_ATTRIBUTE_SYSTEM ≠ 0 ∨ a &&& ENTRY_ATTRIBUTE_VOLUME_LABEL ≠ 0)) := by
  unfold isLongFileNameEntry
  rw [he]
  clear he
  revert a
  decide

/-- Witness for the amended C6 at the concrete read-only entry. -/
theorem isLongFileNameEntry_iff_witness :
    isLongFileNameEntry c6Entry = true ↔
      ((1 : Nat) &&& ENTRY_ATTRIBUTE_READ_ONLY ≠ 0 ∨ (1 : Nat) &&& ENTRY_ATTRIBUTE_HIDDEN ≠ 0 ∨
       (1 : Nat) &&& ENTRY_ATTRIBUTE_SYSTEM ≠ 0 ∨ (1 : Nat) &&& ENTRY_ATTRIBUTE_VOLUME_LABEL ≠ 0) :=
  isLongFileNameEntry_iff_any_low_attribute_bit 1 (by decide) c6Entry (by decide)

/-- C10: `exists` on the root path `/` (and the empty path) returns `true`
in the FAT12 implementation, but `false` in the FAT16 and FAT32
implementations, whose `findFileByPath` reports `InvalidPath` for a path
that normalizes to an empty component list — for every volume state. -/
theorem exists_root_path_by_variant :
    (∀ d : Disk, fat12Exists d (qstr "/") = true ∧ fat12Exists d [] = true) ∧
    (∀ st : FAT16State, fat16Exists st (qstr "/") = false ∧ fat16Exists st [] = false ∧
      (fat16FindFileByPath st (qstr "/")).2 = QFATError.InvalidPath) ∧
    (∀ st : FAT32State, fat32Exists st (qstr "/") = false ∧ fat32Exists st [] = false ∧
      (fat32FindFileByPath st (qstr "/")).2 = QFATError.InvalidPath) := by
  exact ⟨fun d => ⟨rfl, rfl⟩, fun st => ⟨rfl, rfl, rfl⟩, fun st => ⟨rfl, rfl, rfl⟩⟩

/-- C4 (code bug): on the concrete FAT32 volume `c4Disk` whose FAT slot for
cluster 2 holds 0xF0000000 (top 4 bits set) on both copies,
`writeNextCluster(2, 3)` overwrites the whole 32-bit slot with the masked
value: afterwards the top 4 bits of the slot are 0 on every copy, not their
previous value 0xF. -/
theorem fat32WriteNextCluster_clears_top_bits :
    read32 c4Disk 72 >>> 28 = 0xF ∧ read32 c4Disk 136 >>> 28 = 0xF ∧
    read32 (fat32WriteNextCluster c4Disk 2 3) 72 >>> 28 = 0 ∧
    read32 (fat32WriteNextCluster c4Disk 2 3) 136 >>> 28 = 0 ∧
    read32 (fat32WriteNextCluster c4Disk 2 3) 72 = 3 ∧
    read32 (fat32WriteNextCluster c4Disk 2 3) 136 = 3 := by decide

/-- C3 (counterexample): on the concrete FAT12 volume `c3Disk` with two FAT
copies (32 bytes each, at 32 and 64) that are identical before the call,
`fat12WriteNextCluster 2 5` leaves the two copies different: the source
writes only the first FAT copy. -/
theorem fat12WriteNextCluster_breaks_mirror :
    readNumberOfFATs c3Disk = 2 ∧
    fatMirrored c3Disk 32 32 2 ∧
    ¬ fatMirrored (fat12WriteNextCluster c3Disk 2 5) 32 32 2 ∧
    (fat12WriteNextCluster c3Disk 2 5) 35 = 5 ∧
    (fat12WriteNextCluster c3Disk 2 5) 67 = 0 := by decide

-- ============================================================================
-- Frame and read lemmas for the FAT-copy write loop (toward C3)
-- ============================================================================

theorem writeBytes_frame (bs : List Nat) : ∀ (d : Disk) (off a : Nat),
    (a < off ∨ off + bs.length ≤ a) → writeBytes d off bs a = d a := by
  induction bs with
  | nil => intro d off a _; rfl
  | cons b bs ih =>
    intro d off a h
    simp only [List.length_cons] at h
    show writeBytes (dwrite d off b) (off + 1) bs a = d a
    rw [ih (dwrite d off b) (off + 1) a (by omega)]
    unfold dwrite
    have hne : a ≠ off := by omega
    simp [hne]

theorem writeBytes_read (bs : List Nat) : ∀ (d : Disk) (off t : Nat), t < bs.length →
    writeBytes d off bs (off + t) = bs.getD t 0 % 256 := by
  induction bs with
  | nil => intro d off t h; simp at h
  | cons b bs ih =>
    intro d off t h
    show writeBytes (dwrite d off b) (off + 1) bs (off + t) = _
    cases t with
    | zero =>
      rw [writeBytes_frame bs (dwrite d off b) (off + 1) (off + 0) (Or.inl (by omega))]
      unfold dwrite
      simp
    | succ t =>
      have ha : off + (t + 1) = (off + 1) + t := by omega
      rw [ha, ih (dwrite d off b) (off + 1) t (by simp only [List.length_cons] at h; omega)]
      rfl

theorem mul_add_inj {F i j t k : Nat} (hj : j < F) (hk : k < F)
    (h : i * F + j = t * F + k) : i = t ∧ j = k := by
  have hF : 0 < F := Nat.lt_of_le_of_lt (Nat.zero_le j) hj
  have h1 : (i * F + j) / F = i := by
    rw [Nat.mul_comm i F, Nat.mul_add_div hF, Nat.div_eq_of_lt hj]
    omega
  have h2 : (t * F + k) / F = t := by
    rw [Nat.mul_comm t F, Nat.mul_add_div hF, Nat.div_eq_of_lt hk]
    omega
  have hit : i = t := by rw [← h1, ← h2, h]
  subst hit
  exact ⟨rfl, by omega⟩

/-- Bytes below `fatOffset` are never touched by the copy loop. -/
theorem fatWriteCopies_low (readSPF : Disk → Nat) (bs : List Nat) (fatOffset bps : Nat) :
    ∀ (k i : Nat) (d : Disk) (a : Nat), a < fatOffset →
    fatWriteCopies readSPF bs fatOffset bps i k d a = d a := by
  intro k
  induction k with
  | zero => intro i d a _; rfl
  | succ k ih =>
    intro i d a ha
    show fatWriteCopies readSPF bs fatOffset bps (i + 1) k
      (writeBytes d (fatOffset + i * readSPF d * bps) bs) a = d a
    rw [ih (i + 1) _ a ha, writeBytes_frame bs d _ a (Or.inl (by omega))]

/-- The sectors-per-FAT field re-read inside the loop is unchanged by the
loop's own writes, which all land at or above `fatOffset`. -/
theorem fatWriteCopies_spf_stable (readSPF : Disk → Nat) (bs : List Nat)
    (fatOffset spfBound : Nat)
    (hR : ∀ e e' : Disk, (∀ x, x < spfBound → e x = e' x) → readSPF e = readSPF e')
    (hB : spfBound ≤ fatOffset) (d : Disk) (off : Nat) (hoff : fatOffset ≤ off) :
    readSPF (writeBytes d off bs) = readSPF d := by
  apply hR
  intro x hx
  exact writeBytes_frame bs d off x (Or.inl (by omega))

/-- A byte outside every copy's written window is unchanged by the loop. -/
theorem fatWriteCopies_frame (readSPF : Disk → Nat) (bs : List Nat)
    (fatOffset bps spfBound : Nat)
    (hR : ∀ e e' : Disk, (∀ x, x < spfBound → e x = e' x) → readSPF e = readSPF e')
    (hB : spfBound ≤ fatOffset) :
    ∀ (k i : Nat) (d : Disk) (a : Nat),
    (∀ t, t < k → a < fatOffset + (i + t) * readSPF d * bps
      ∨ fatOffset + (i + t) * readSPF d * bps + bs.length ≤ a) →
    fatWriteCopies readSPF bs fatOffset bps i k d a = d a := by
  intro k
  induction k with
  | zero => intro i d a _; rfl
  | succ k ih =>
    intro i d a h
    have hspf : readSPF (writeBytes d (fatOffset + i * readSPF d * bps) bs) = readSPF d :=
      fatWriteCopies_spf_stable readSPF bs fatOffset spfBound hR hB d _ (by omega)
    show fatWriteCopies readSPF bs fatOffset bps (i + 1) k
      (writeBytes d (fatOffset + i * readSPF d * bps) bs) a = d a
    rw [ih (i + 1) _ a ?later]
    · rcases h 0 (by omega) with h0 | h0 <;>
        exact writeBytes_frame bs d _ a (by simp only [Nat.add_zero] at h0; omega)
    case later =>
      intro t ht
      rw [hspf]
      have hh := h (t + 1) (by omega)
      have he : i + (t + 1) = (i + 1) + t := by omega
      rw [he] at hh
      exact hh

/-- Each copy's window holds the written bytes after the loop, provided the
stride (one FAT copy) is at least the window width. -/
theorem fatWriteCopies_read (readSPF : Disk → Nat) (bs : List Nat)
    (fatOffset bps spfBound : Nat)
    (hR : ∀ e e' : Disk, (∀ x, x < spfBound → e x = e' x) → readSPF e = readSPF e')
    (hB : spfBound ≤ fatOffset) :
    ∀ (k i : Nat) (d : Disk) (t u : Nat),
    t < k → u < bs.length → bs.length ≤ readSPF d * bps →
    fatWriteCopies readSPF bs fatOffset bps i k d
      (fatOffset + (i + t) * readSPF d * bps + u) = bs.getD u 0 % 256 := by
  intro k
  induction k with
  | zero => intro i d t u ht _ _; omega
  | succ k ih =>
    intro i d t u ht hu hstr
    have hspf : readSPF (writeBytes d (fatOffset + i * readSPF d * bps) bs) = readSPF d :=
      fatWriteCopies_spf_stable readSPF bs fatOffset spfBound hR hB d _ (by omega)
    show fatWriteCopies readSPF bs fatOffset bps (i + 1) k
      (writeBytes d (fatOffset + i * readSPF d * bps) bs)
      (fatOffset + (i + t) * readSPF d * bps + u) = bs.getD u 0 % 256
    cases t with
    | zero =>
      rw [fatWriteCopies_frame readSPF bs fatOffset bps spfBound hR hB k (i + 1) _ _ ?disj]
      · have ha : fatOffset + (i + 0) * readSPF d * bps + u
            = (fatOffset + i * readSPF d * bps) + u := by ring
        rw [ha]
        exact writeBytes_read bs d _ u hu
      case disj =>
        intro t' ht'
        rw [hspf]
        apply Or.inl
        have h1 : ((i + 1) + t') * readSPF d * bps
            = i * readSPF d * bps + (1 + t') * (readSPF d * bps) := by ring
        have h2 : 1 * (readSPF d * bps) ≤ (1 + t') * (readSPF d * bps) :=
          Nat.mul_le_mul_right _ (by omega)
        have h3 : (i + 0) * readSPF d * bps = i * readSPF d * bps := by ring
        omega
    | succ t' =>
      have ha : fatOffset + (i + (t' + 1)) * readSPF d * bps + u
          = fatOffset + ((i + 1) + t') * readSPF
              (writeBytes d (fatOffset + i * readSPF d * bps) bs) * bps + u := by
        rw [hspf]; ring
      rw [ha, ih (i + 1) _ t' u (by omega) hu (by rw [hspf]; exact hstr)]

/-- The copy loop preserves the FAT-mirror invariant: writing the window
`bs` at offset `slotOff` of every one of the `n` FAT copies (each
`readSPF d * bps` bytes wide) keeps all copies pointwise equal, provided
the window lies inside one copy and the sectors-per-FAT field lives below
the FAT region. -/
theorem fatWriteCopies_mirror (readSPF : Disk → Nat) (bs : List Nat)
    (base bps spfBound slotOff n : Nat) (d : Disk)
    (hR : ∀ e e' : Disk, (∀ x, x < spfBound → e x = e' x) → readSPF e = readSPF e')
    (hB : spfBound ≤ base + slotOff)
    (hwin : slotOff + bs.length ≤ readSPF d * bps)
    (hmir : fatMirrored d base (readSPF d * bps) n) :
    fatMirrored (fatWriteCopies readSPF bs (base + slotOff) bps 0 n d)
      base (readSPF d * bps) n := by
  intro i hi j hj
  by_cases hcase : slotOff ≤ j ∧ j < slotOff + bs.length
  · obtain ⟨h1, h2⟩ := hcase
    have haddr1 : base + i * (readSPF d * bps) + j
        = (base + slotOff) + (0 + i) * readSPF d * bps + (j - slotOff) := by
      have e1 : (0 + i) * readSPF d * bps = i * (readSPF d * bps) := by ring
      omega
    have haddr2 : base + j
        = (base + slotOff) + (0 + 0) * readSPF d * bps + (j - slotOff) := by
      have e1 : (0 + 0) * readSPF d * bps = 0 := by ring
      omega
    rw [haddr1, haddr2,
      fatWriteCopies_read readSPF bs (base + slotOff) bps spfBound hR hB n 0 d i
        (j - slotOff) hi (by omega) (by omega),
      fatWriteCopies_read readSPF bs (base + slotOff) bps spfBound hR hB n 0 d 0
        (j - slotOff) (by omega) (by omega) (by omega)]
  · have hframe1 : fatWriteCopies readSPF bs (base + slotOff) bps 0 n d
        (base + i * (readSPF d * bps) + j) = d (base + i * (readSPF d * bps) + j) := by
      apply fatWriteCopies_frame readSPF bs (base + slotOff) bps spfBound hR hB
      intro t ht
      have e1 : (0 + t) * readSPF d * bps = t * (readSPF d * bps) := by ring
      rw [e1]
      by_contra hcon
      push_neg at hcon
      obtain ⟨hge, hlt⟩ := hcon
      have hult : base + i * (readSPF d * bps) + j
          - (base + slotOff + t * (readSPF d * bps)) < bs.length := by omega
      have hkey : i * (readSPF d * bps) + j = t * (readSPF d * bps)
          + (slotOff + (base + i * (readSPF d * bps) + j
              - (base + slotOff + t * (readSPF d * bps)))) := by omega
      have hk2 : slotOff + (base + i * (readSPF d * bps) + j
          - (base + slotOff + t * (readSPF d * bps))) < readSPF d * bps := by omega
      obtain ⟨_, hjeq⟩ := mul_add_inj hj hk2 hkey
      exact hcase ⟨by omega, by omega⟩
    have hframe2 : fatWriteCopies readSPF bs (base + slotOff) bps 0 n d
        (base + j) = d (base + j) := by
      apply fatWriteCopies_frame readSPF bs (base + slotOff) bps spfBound hR hB
      intro t ht
      have e1 : (0 + t) * readSPF d * bps = t * (readSPF d * bps) := by ring
      rw [e1]
      by_contra hcon
      push_neg at hcon
      obtain ⟨hge, hlt⟩ := hcon
      have hult : base + j - (base + slotOff + t * (readSPF d * bps)) < bs.length := by
        omega
      have hkey : 0 * (readSPF d * bps) + j = t * (readSPF d * bps)
          + (slotOff + (base + j - (base + slotOff + t * (readSPF d * bps)))) := by
        simp only [Nat.zero_mul]
        omega
      have hk2 : slotOff + (base + j - (base + slotOff + t * (readSPF d * bps)))
          < readSPF d * bps := by omega
      obtain ⟨_, hjeq⟩ := mul_add_inj hj hk2 hkey
      exact hcase ⟨by omega, by omega⟩
    rw [hframe1, hframe2]
    exact hmir i hi j hj

/-- The FAT16 sectors-per-FAT read depends only on bytes below 0x18. -/
theorem read16_spf_low (e e' : Disk) (h : ∀ x, x < 0x18 → e x = e' x) :
    read16 e BPB_SECTORS_PER_FAT_OFFSET = read16 e' BPB_SECTORS_PER_FAT_OFFSET := by
  unfold read16 read8 BPB_SECTORS_PER_FAT_OFFSET
  rw [h 0x16 (by norm_num), h (0x16 + 1) (by norm_num)]

/-- The FAT32 sectors-per-FAT read depends only on bytes below 0x28. -/
theorem read32_spf_low (e e' : Disk) (h : ∀ x, x < 0x28 → e x = e' x) :
    read32 e BPB_SECTORS_PER_FAT32_OFFSET = read32 e' BPB_SECTORS_PER_FAT32_OFFSET := by
  unfold read32 read8 BPB_SECTORS_PER_FAT32_OFFSET
  rw [h 0x24 (by norm_num), h (0x24 + 1) (by norm_num), h (0x24 + 2) (by norm_num),
    h (0x24 + 3) (by norm_num)]

/-- C3 (amended): for FAT16 and FAT32, `writeNextCluster` writes the entry
to all `num_fats` FAT copies identically, so the mirror invariant — all FAT
copies hold the same content for every index — is preserved by every such
completed FAT mutation (and hence by allocation, freeing, writing and
deleting, which mutate the FAT only through `writeNextCluster`).  The FAT
region is assumed to start past the BPB fields the write re-reads
(`0x18 ≤ base`, resp. `0x28 ≤ base`) and the slot to lie inside one copy. -/
theorem writeNextCluster_mirror_preserved :
    (∀ (d : Disk) (cluster value : Nat),
      0x18 ≤ readReservedSectors d * readBytesPerSector d →
      cluster * 2 + 2 ≤ read16 d BPB_SECTORS_PER_FAT_OFFSET * readBytesPerSector d →
      fatMirrored d (readReservedSectors d * readBytesPerSector d)
        (read16 d BPB_SECTORS_PER_FAT_OFFSET * readBytesPerSector d) (readNumberOfFATs d) →
      fatMirrored (fat16WriteNextCluster d cluster value)
        (readReservedSectors d * readBytesPerSector d)
        (read16 d BPB_SECTORS_PER_FAT_OFFSET * readBytesPerSector d) (readNumberOfFATs d)) ∧
    (∀ (d : Disk) (cluster value : Nat),
      0x28 ≤ readReservedSectors d * readBytesPerSector d →
      cluster * 4 + 4 ≤ read32 d BPB_SECTORS_PER_FAT32_OFFSET * readBytesPerSector d →
      fatMirrored d (readReservedSectors d * readBytesPerSector d)
        (read32 d BPB_SECTORS_PER_FAT32_OFFSET * readBytesPerSector d) (readNumberOfFATs d) →
      fatMirrored (fat32WriteNextCluster d cluster value)
        (readReservedSectors d * readBytesPerSector d)
        (read32 d BPB_SECTORS_PER_FAT32_OFFSET * readBytesPerSector d)
        (readNumberOfFATs d)) := by
  constructor
  · intro d cluster value hbase hslot hmir
    exact fatWriteCopies_mirror (fun e => read16 e BPB_SECTORS_PER_FAT_OFFSET)
      [value % 256, value / 256 % 256]
      (readReservedSectors d * readBytesPerSector d) (readBytesPerSector d) 0x18
      (cluster * 2) (readNumberOfFATs d) d read16_spf_low (by omega)
      (by simpa using hslot) hmir
  · intro d cluster value hbase hslot hmir
    exact fatWriteCopies_mirror (fun e => read32 e BPB_SECTORS_PER_FAT32_OFFSET)
      (bytes32 (value &&& 0x0FFFFFFF))
      (readReservedSectors d * readBytesPerSector d) (readBytesPerSector d) 0x28
      (cluster * 4) (readNumberOfFATs d) d read32_spf_low (by omega)
      (by simpa [bytes32] using hslot) hmir

/-- Witness for the amended C3: concrete FAT16 and FAT32 volumes with two
all-zero (hence mirrored) FAT copies stay mirrored across a
`writeNextCluster`. -/
theorem writeNextCluster_mirror_preserved_witness :
    fatMirrored (fat16WriteNextCluster fat16Geom 2 7) 32 32 2 ∧
      fatMirrored (fat32WriteNextCluster c4Disk 3 7) 64 64 2 := by
  constructor
  · exact writeNextCluster_mirror_preserved.1 fat16Geom 2 7 (by decide) (by decide) (by decide)
  · exact writeNextCluster_mirror_preserved.2 c4Disk 3 7 (by decide) (by decide) (by decide)

/-- C1 (code bug): on the concrete volume `c1Disk`, `/DIR` resolves to a
directory, yet `writeFile("/DIR", "X")` succeeds (no `InvalidPath`), frees
the directory's cluster chain (the FAT entry of cluster 2 changes from the
end-of-chain value 0xFFF8, being reused for the new file data), and
rewrites the entry as an archive file — the volume is not left unchanged. -/
theorem fat16WriteFile_on_directory_succeeds :
    (fat16FindFileByPath c1St (qstr "/DIR")).1.isDirectory = true ∧
    (fat16FindFileByPath c1St (qstr "/DIR")).2 = QFATError.None ∧
    read16 c1Disk 36 = 0xFFF8 ∧
    (fat16WriteFile c1St (qstr "/DIR") (qstr "X") cNow).1 = true ∧
    (fat16WriteFile c1St (qstr "/DIR") (qstr "X") cNow).2.1 = QFATError.None ∧
    read16 (fat16WriteFile c1St (qstr "/DIR") (qstr "X") cNow).2.2.disk 36 = 0xFFFF ∧
    read8 (fat16WriteFile c1St (qstr "/DIR") (qstr "X") cNow).2.2.disk 107
      = ENTRY_ATTRIBUTE_ARCHIVE ∧
    read8 (fat16WriteFile c1St (qstr "/DIR") (qstr "X") cNow).2.2.disk 352 = 88 := by
  decide

/-- C2 (code bug): on the concrete volume `c2Disk` with exactly two free
clusters (5 and 9), `allocateClusterChain(3)` fails and returns the empty
list, but the rollback only restores the first allocated cluster: cluster 5
is freed again while cluster 9 is left marked 0xFFFF (its FAT entry was 0
before the call), so the FAT after the failed call differs from the FAT
before it. -/
theorem fat16AllocateClusterChain_partial_rollback_leaks :
    read16 c2Disk 42 = 0 ∧ read16 c2Disk 50 = 0 ∧
    (fat16AllocateClusterChain c2Disk 3).1 = [] ∧
    read16 (fat16AllocateClusterChain c2Disk 3).2 42 = 0 ∧
    read16 (fat16AllocateClusterChain c2Disk 3).2 50 = 0xFFFF ∧
    read16 (fat16AllocateClusterChain c2Disk 3).2 82 = 0xFFFF := by
  decide

/-- C5 (counterexample): on the concrete volume `c5Disk` whose root holds a
valid LFN chain (first byte 0x41) immediately before the short entry
`AB~1.TXT`, `deleteFile` succeeds and writes 0xE5 into byte 0 of the short
entry (offset 128) but leaves byte 0 of the preceding LFN entry (offset 96)
unchanged at 0x41 — a live LFN entry remains pointing at a deleted entry,
so the claimed marking of every preceding LFN entry does not happen. -/
theorem fat16DeleteFile_leaves_lfn_alive :
    isLongFileNameEntry (readEntryBytes c5Disk 96) = true ∧
    c5Disk 96 = 0x41 ∧
    entryByte (readEntryBytes c5Disk 96) 0x0D = calculateLFNChecksum (qstr "AB~1.TXT") ∧
    (fat16DeleteFile c5St (qstr "/AB~1.TXT")).1 = true ∧
    (fat16DeleteFile c5St (qstr "/AB~1.TXT")).2.2.disk 128 = 0xE5 ∧
    (fat16DeleteFile c5St (qstr "/AB~1.TXT")).2.2.disk 96 = 0x41 ∧
    (fat16DeleteFile c5St (qstr "/AB~1.TXT")).2.2.disk 96 ≠ 0xE5 ∧
    isLongFileNameEntry (readEntryBytes (fat16DeleteFile c5St (qstr "/AB~1.TXT")).2.2.disk 96)
      = true := by
  decide

/-- C5 (amended): `deleteDirectoryEntry` changes at most one byte of the
volume — byte 0 of the matched short entry, which it sets to 0xE5 when it
reports success; every other byte, in particular byte 0 of every preceding
LFN entry of the chain, is left unchanged. -/
theorem fat16DeleteDirectoryEntry_marks_only_sde (st : FAT16State) (path : List Nat) :
    ∃ o : Nat,
      (∀ a : Nat, a ≠ o → (fat16DeleteDirectoryEntry st path).2.disk a = st.disk a) ∧
      ((fat16DeleteDirectoryEntry st path).1 = true →
        (fat16DeleteDirectoryEntry st path).2.disk o = 0xE5) := by
  have hcases : (fat16DeleteDirectoryEntry st path = (false, st)) ∨
      (∃ o, fat16DeleteDirectoryEntry st path
        = (true, { st with disk := dwrite st.disk o ENTRY_DELETED })) := by
    unfold fat16DeleteDirectoryEntry
    dsimp only
    split
    · exact Or.inl rfl
    · split
      · exact Or.inl rfl
      · split
        · exact Or.inl rfl
        · exact Or.inr ⟨_, rfl⟩
  rcases hcases with h | ⟨o, h⟩
  · refine ⟨0, fun a _ => by rw [h], fun htrue => ?_⟩
    rw [h] at htrue
    exact absurd htrue (by simp)
  · refine ⟨o, fun a ha => ?_, fun _ => ?_⟩
    · rw [h]
      show dwrite st.disk o ENTRY_DELETED a = st.disk a
      unfold dwrite
      simp [ha]
    · rw [h]
      show dwrite st.disk o ENTRY_DELETED o = 0xE5
      unfold dwrite
      simp [ENTRY_DELETED]

/-- Witness for the amended C5 at the concrete `c5Disk` deletion. -/
theorem fat16DeleteDirectoryEntry_marks_only_sde_witness :
    ∃ o : Nat,
      (∀ a : Nat, a ≠ o →
        (fat16DeleteDirectoryEntry c5St (qstr "/AB~1.TXT")).2.disk a = c5St.disk a) ∧
      ((fat16DeleteDirectoryEntry c5St (qstr "/AB~1.TXT")).1 = true →
        (fat16DeleteDirectoryEntry c5St (qstr "/AB~1.TXT")).2.disk o = 0xE5) :=
  fat16DeleteDirectoryEntry_marks_only_sde c5St (qstr "/AB~1.TXT")

/-- C8 (counterexample): on the fresh volume, after
`write("/This Is A Long Filename.TXT", "L")` succeeds the root directory
holds no LFN entry at all, the short entry's 11-byte name is `THISIS  TXT`
(not `THISIS~1TXT` — no numeric tail is generated on a fresh volume, hence
no LFN chain is written), and listing the root yields the long name
`THISIS.TXT` rather than `This Is A Long Filename.TXT`. -/
theorem fat16WriteFile_lfn_roundtrip_fails :
    c8Res.1 = true ∧ c8Res.2.1 = QFATError.None ∧
    ((List.range 8).all
      (fun i => !isLongFileNameEntry (readEntryBytes c8Res.2.2.disk (96 + 32 * i)))) = true ∧
    (List.range 11).map (fun i => read8 c8Res.2.2.disk (96 + i)) = qstr "THISIS  TXT" ∧
    (List.range 11).map (fun i => read8 c8Res.2.2.disk (96 + i)) ≠ qstr "THISIS~1TXT" ∧
    (fat16ListRootDirectory c8Res.2.2.disk).map (fun e => e.longName) = [qstr "THISIS.TXT"] ∧
    qstr "THISIS.TXT" ≠ qstr "This Is A Long Filename.TXT" := by
  decide

/-- C8 (amended): the write succeeds and stores a short-name-only entry:
the generated short name is `THISIS.TXT` (no collision, so no `~N` tail and
no LFN chain), the file's data cluster holds the byte `L`, listing the root
yields the entry under the name `THISIS.TXT`, and the original long name
remains reachable only through the mount-lifetime long-to-short map, which
`exists` consults. -/
theorem fat16WriteFile_short_only_entry :
    generateShortName (qstr "This Is A Long Filename.TXT") [] = qstr "THISIS.TXT" ∧
    c8Res.1 = true ∧
    read8 c8Res.2.2.disk 352 = 76 ∧
    read16 c8Res.2.2.disk 36 = 0xFFFF ∧
    (fat16ListRootDirectory c8Res.2.2.disk).map (fun e => (e.name, e.longName))
      = [(qstr "THISIS.TXT", qstr "THISIS.TXT")] ∧
    c8Res.2.2.longToShortNameMap
      = [(qstr "this is a long filename.txt", qstr "THISIS.TXT")] ∧
    fat16Exists c8Res.2.2 (qstr "/This Is A Long Filename.TXT") = true := by
  decide

end QFAT
